import Mathlib

/-!
# go-template: write decision engine, template renderer, generator

A shallow embedding of the three Go packages of the repository

* `writer`    (`writer/file.go`, `writer/options.go`),
* `template`  (`template.go`, `error.go`, `options.go`),
* `generator` (`generator/generator.go`),

together with the part of the operating system and of the Go standard library they
call.

* Go strings and byte slices are Lean `String`s.
* A Go `error` is `Option GoError`, `none` being nil; a `GoError` records the dynamic
  type of the value and the text of `Error()`.
* The file system is an explicit state that every operation takes and returns: a
  finite list of entries (regular files with content, directories) with the
  permissions of the process on each, and the working directory.  A system call walks
  its path element by element through directories the process may search
  (`FS.walk`), and fails with the error numbers of POSIX.  There are no symbolic
  links; failures of the device (no space, I/O errors) and other processes are
  outside the model.
* A function that may panic returns `Panics`.
* The template engine, the source formatter and the `goimports` process are
  parameters (`Env`); every theorem that is not an evaluation on a concrete input
  holds for all of them.
-/

set_option autoImplicit false

namespace GoTemplate

/-! ## Go error values -/

/-- Error numbers returned by the modelled system calls. -/
inductive Errno where
  | ENOENT | EACCES | EPERM | EISDIR | ENOTDIR | ENOTEMPTY | EEXIST | EBUSY | ENAMETOOLONG
  deriving DecidableEq, Repr

/-- The text Go prints for an error number. -/
def Errno.message : Errno → String
  | .ENOENT => "no such file or directory"
  | .EACCES => "permission denied"
  | .EPERM => "operation not permitted"
  | .EISDIR => "is a directory"
  | .ENOTDIR => "not a directory"
  | .ENOTEMPTY => "directory not empty"
  | .EEXIST => "file exists"
  | .EBUSY => "device or resource busy"
  | .ENAMETOOLONG => "file name too long"

/-- The dynamic type (or identity) of a Go error value. -/
inductive ErrKind where
  /-- the sentinel value `writer.ErrNoOp` -/
  | errNoOp
  /-- a value made by `fmt.Errorf` or `errors.New` -/
  | errorString
  /-- a value made by `errors.Wrap` -/
  | withMessage
  /-- an `*os.PathError` carrying an error number -/
  | pathError (errno : Errno)
  /-- an error of an external collaborator (template engine, formatter, process) -/
  | external
  | ExecutionError
  | FileReadError
  | CreateTemplateError
  | GoFormatError
  | FileOpenError
  | ParseError
  deriving DecidableEq, Repr

/-- A non-nil Go `error`: its dynamic type and the text of `Error()`. -/
structure GoError where
  kind : ErrKind
  msg : String
  deriving DecidableEq, Repr

/-- The result of `fmt.Errorf(msg)`. -/
def fmtErrorf (msg : String) : GoError := { kind := .errorString, msg := msg }

/-- The result of `errors.Wrap(err, msg)` of `github.com/pkg/errors` on a non-nil error. -/
def errorsWrap (err : GoError) (msg : String) : GoError :=
  { kind := .withMessage, msg := msg ++ ": " ++ err.msg }

/-- The text `fmt.Sprintf("%s", err)` prints for a possibly nil error. -/
def sprintErr : Option GoError → String
  | none => "%!s(<nil>)"
  | some e => e.msg

deriving instance DecidableEq for Except

/-- A Go function either returns or panics. -/
inductive Panics (α : Type) where
  | returns (a : α)
  | panics (reason : String)
  deriving DecidableEq, Repr

/-! ## Paths (`path/filepath` on Unix) -/

/-- The pieces of a path between its separators: `strings.Split(p, "/")`. -/
def splitSlash : List Char → List (List Char)
  | [] => [[]]
  | c :: cs =>
    if c = '/' then [] :: splitSlash cs
    else match splitSlash cs with
      | [] => [[c]]
      | h :: t => (c :: h) :: t

/-- The pieces put together again: `strings.Join(comps, "/")`. -/
def joinSlash : List (List Char) → List Char
  | [] => []
  | [c] => c
  | c :: d :: cs => c ++ '/' :: joinSlash (d :: cs)

/-- One element of lexical cleaning; the stack holds the kept elements, last first. -/
def cleanStep (rooted : Bool) (stack : List (List Char)) (c : List Char) : List (List Char) :=
  if c = [] ∨ c = ['.'] then stack
  else if c = ['.', '.'] then
    match stack with
    | [] => if rooted then [] else [c]
    | top :: rest => if top = ['.', '.'] then c :: stack else rest
  else c :: stack

/-- Whether a path starts at the root. -/
def isRooted (p : List Char) : Bool :=
  match p with
  | c :: _ => c = '/'
  | [] => false

/-- The elements `filepath.Clean` keeps, first to last. -/
def cleanComps (p : List Char) : List (List Char) :=
  ((splitSlash p).foldl (cleanStep (isRooted p)) []).reverse

/-- Lexical cleaning on characters: `filepath.Clean`. -/
def cleanChars (p : List Char) : List Char :=
  match cleanComps p, isRooted p with
  | [], true => ['/']
  | [], false => ['.']
  | c :: cs, true => '/' :: joinSlash (c :: cs)
  | c :: cs, false => joinSlash (c :: cs)

/-- Go's `filepath.Clean`. -/
def Clean (p : String) : String := ⟨cleanChars p.data⟩

/-- The part of a path up to and including its last separator. -/
def dirPart (p : List Char) : List Char :=
  (p.reverse.dropWhile (fun c => c ≠ '/')).reverse

/-- Go's `filepath.Dir`: everything but the last element, cleaned. -/
def Dir (p : String) : String := ⟨cleanChars (dirPart p.data)⟩

/-- Go's `filepath.Join`: leading empty elements are skipped, the rest is joined by
separators and cleaned. -/
def Join : List String → String
  | [] => ""
  | e :: es =>
    if e = "" then Join es
    else ⟨cleanChars (joinSlash ((e :: es).map String.data))⟩

/-! ## The file system -/

/-- The place of an entry in the tree: its name, then its parent's name, up to the
root, which is `[]`. -/
abbrev Key := List String

/-- What the process may do with an entry; `executable` on a directory is the
permission to search it. -/
structure Perm where
  readable : Bool
  writable : Bool
  executable : Bool
  owned : Bool
  deriving DecidableEq, Repr

/-- The permissions of an entry the process has just made. -/
def Perm.fresh : Perm :=
  { readable := true, writable := true, executable := true, owned := true }

/-- An entry: a regular file with its content, or a directory. -/
inductive Node where
  | file (content : String) (perm : Perm)
  | dir (perm : Perm)
  deriving DecidableEq, Repr

/-- The first entry recorded for a place. -/
def findEntry (k : Key) : List (Key × Node) → Option Node
  | [] => none
  | e :: rest => if e.1 = k then some e.2 else findEntry k rest

/-- The state of the file system: the working directory of the process and the
entries.  An entry recorded earlier in the list hides a later one of the same place.
There are no symbolic links and the process is not the superuser. -/
structure FS where
  cwd : Key
  entries : List (Key × Node)
  deriving Repr

/-- The entry at a place. -/
def FS.get (fs : FS) (k : Key) : Option Node := findEntry k fs.entries

/-- The file system with a place set to an entry. -/
def FS.set (fs : FS) (k : Key) (n : Node) : FS :=
  { fs with entries := (k, n) :: fs.entries }

/-- The file system without a place. -/
def FS.del (fs : FS) (k : Key) : FS :=
  { fs with entries := fs.entries.filter (fun e => !decide (e.1 = k)) }

/-- Whether some entry lies directly in a place. -/
def FS.hasChild (fs : FS) (k : Key) : Bool :=
  fs.entries.any (fun e => decide (e.1 ≠ [] ∧ e.1.tail = k))

/-- The longest name of an entry, in bytes (`NAME_MAX`). -/
def nameMax : Nat := 255

/-- The least length of a path, in bytes, that is too long (`PATH_MAX`). -/
def pathMax : Nat := 4096

/-- The walk of the kernel along the elements of a path, from the place `cur`.  Every
element is looked up in the place reached so far, which must be a directory the
process may search: an absent place is `ENOENT`, a regular file `ENOTDIR`, a directory
without search permission `EACCES`.  An empty element (a repeated or trailing
separator) and `.` stay, `..` goes to the parent (the root is its own parent), a name
goes down and may name nothing yet. -/
def FS.walk (fs : FS) : Key → List (List Char) → Except Errno Key
  | cur, [] => .ok cur
  | cur, c :: rest =>
    match fs.get cur with
    | none => .error .ENOENT
    | some (.file _ _) => .error .ENOTDIR
    | some (.dir perm) =>
      if perm.executable = false then .error .EACCES
      else if c = [] ∨ c = ['.'] then FS.walk fs cur rest
      else if c = ['.', '.'] then FS.walk fs cur.tail rest
      else if nameMax < (String.mk c).utf8ByteSize then .error .ENAMETOOLONG
      else FS.walk fs (String.mk c :: cur) rest

/-- The place a path names for a system call: the empty path names nothing, a path
of `PATH_MAX` bytes or more is too long, a rooted path is walked from the root and any
other from the working directory. -/
def FS.lookup (fs : FS) (p : String) : Except Errno Key :=
  if p = "" then .error .ENOENT
  else if pathMax ≤ p.utf8ByteSize then .error .ENAMETOOLONG
  else fs.walk (if isRooted p.data then [] else fs.cwd) (splitSlash p.data)

/-- A path without its trailing separators. -/
def stripSlashes (p : String) : String :=
  ⟨(p.data.reverse.dropWhile (fun c => c = '/')).reverse⟩

/-- Whether a path ends in a separator and, but for that, names a place that holds
nothing: opening such a path for creation fails with `EISDIR`. -/
def FS.namesNewDir (fs : FS) (p : String) : Bool :=
  decide (stripSlashes p ≠ p) &&
    (match fs.lookup (stripSlashes p) with
     | .ok k => decide (fs.get k = none)
     | .error _ => false)

/-! ## Package `os` -/

namespace os

/-- An `*os.PathError`. -/
def pathError (op path : String) (e : Errno) : GoError :=
  { kind := .pathError e, msg := op ++ " " ++ path ++ ": " ++ e.message }

/-- Go's `os.IsNotExist`. -/
def IsNotExist : Option GoError → Bool
  | some e => decide (e.kind = .pathError .ENOENT)
  | none => false

/-- Go's `os.IsPermission`. -/
def IsPermission : Option GoError → Bool
  | some e => decide (e.kind = .pathError .EACCES ∨ e.kind = .pathError .EPERM)
  | none => false

/-- What `os.Stat` tells about an entry. -/
structure FileInfo where
  isDir : Bool
  deriving DecidableEq, Repr

/-- Go's `FileInfo.IsDir`. -/
def FileInfo.IsDir (info : FileInfo) : Bool := info.isDir

/-- Go's `os.Stat` (and `os.Lstat`, there being no symbolic links). -/
def Stat (fs : FS) (path : String) : Except GoError FileInfo :=
  match fs.lookup path with
  | .error e => .error (pathError "stat" path e)
  | .ok k =>
    match fs.get k with
    | some (.dir _) => .ok { isDir := true }
    | some (.file _ _) => .ok { isDir := false }
    | none => .error (pathError "stat" path .ENOENT)

/-- A new entry at a place that holds nothing: the parent must be a directory the
process may write to and search. -/
def addEntry (fs : FS) (op path : String) (k : Key) (n : Node) : FS × Option GoError :=
  match k with
  | [] => (fs, some (pathError op path .ENOENT))
  | _ :: parent =>
    match fs.get parent with
    | some (.dir perm) =>
      if perm.writable ∧ perm.executable then (fs.set k n, none)
      else (fs, some (pathError op path .EACCES))
    | some (.file _ _) => (fs, some (pathError op path .ENOTDIR))
    | none => (fs, some (pathError op path .ENOENT))

/-- The error number of an open for creation whose path could not be walked. -/
def createErrno (fs : FS) (path : String) (e : Errno) : Errno :=
  if fs.namesNewDir path then .EISDIR else e

/-- Go's `os.Create`: open for reading and writing, create if absent, truncate. -/
def Create (fs : FS) (path : String) : FS × Option GoError :=
  match fs.lookup path with
  | .error e => (fs, some (pathError "open" path (createErrno fs path e)))
  | .ok k =>
    match fs.get k with
    | some (.dir _) => (fs, some (pathError "open" path .EISDIR))
    | some (.file _ perm) =>
      if perm.readable ∧ perm.writable then (fs.set k (.file "" perm), none)
      else (fs, some (pathError "open" path .EACCES))
    | none => addEntry fs "open" path k (.file "" Perm.fresh)

/-- Go's `os.Remove`: unlink a file or remove an empty directory. -/
def Remove (fs : FS) (path : String) : FS × Option GoError :=
  match fs.lookup path with
  | .error e => (fs, some (pathError "remove" path e))
  | .ok k =>
    match k, fs.get k with
    | _, none => (fs, some (pathError "remove" path .ENOENT))
    | [], some _ => (fs, some (pathError "remove" path .EBUSY))
    | name :: parent, some n =>
      match fs.get parent with
      | some (.dir perm) =>
        if perm.writable ∧ perm.executable then
          match n with
          | .file _ _ => (fs.del (name :: parent), none)
          | .dir _ =>
            if fs.hasChild (name :: parent) then
              (fs, some (pathError "remove" path .ENOTEMPTY))
            else (fs.del (name :: parent), none)
        else (fs, some (pathError "remove" path .EACCES))
      | some (.file _ _) => (fs, some (pathError "remove" path .ENOTDIR))
      | none => (fs, some (pathError "remove" path .ENOENT))

/-- Go's `os.Chmod(path, 0755)`: only the owner may change the mode; afterwards the
owner may read, write and search. -/
def Chmod0755 (fs : FS) (path : String) : FS × Option GoError :=
  match fs.lookup path with
  | .error e => (fs, some (pathError "chmod" path e))
  | .ok k =>
    match fs.get k with
    | none => (fs, some (pathError "chmod" path .ENOENT))
    | some (.file content perm) =>
      if perm.owned then (fs.set k (.file content Perm.fresh), none)
      else (fs, some (pathError "chmod" path .EPERM))
    | some (.dir perm) =>
      if perm.owned then (fs.set k (.dir Perm.fresh), none)
      else (fs, some (pathError "chmod" path .EPERM))

/-- Go's `os.Mkdir(path, 0755)`; trailing separators are allowed. -/
def Mkdir0755 (fs : FS) (path : String) : FS × Option GoError :=
  if path = "" then (fs, some (pathError "mkdir" path .ENOENT))
  else
    match fs.lookup (if stripSlashes path = "" then path else stripSlashes path) with
    | .error e => (fs, some (pathError "mkdir" path e))
    | .ok k =>
      match fs.get k with
      | some _ => (fs, some (pathError "mkdir" path .EEXIST))
      | none => addEntry fs "mkdir" path k (.dir Perm.fresh)

/-- The path `MkdirAll` makes first: the given path without its trailing separators,
its last element and the separator before that; `none` when there is no such parent
(the index `j` of the source is at most 1). -/
def parentPath (path : String) : Option String :=
  let upToElement :=
    (path.data.reverse.dropWhile (fun c => c = '/')).dropWhile (fun c => c ≠ '/')
  if 1 < upToElement.length then some ⟨(upToElement.drop 1).reverse⟩ else none

/-- The work of `os.MkdirAll(path, 0755)`: a directory at the path is success and a
file an error; otherwise the parent path is made first, then the directory itself,
and a failure of that is forgiven if the directory is there after all.  Every call on
a parent is on a strictly shorter path, so `fuel` above the length of the path is
never used up (`mkdirAllFuel_stable`). -/
def mkdirAllFuel : Nat → FS → String → FS × Option GoError
  | 0, fs, path => (fs, some (pathError "mkdir" path .ENAMETOOLONG))
  | fuel + 1, fs, path =>
    match Stat fs path with
    | .ok dir =>
      if dir.IsDir then (fs, none)
      else (fs, some (pathError "mkdir" path .ENOTDIR))
    | .error _ =>
      let parentDone : FS × Option GoError :=
        match parentPath path with
        | some parent => mkdirAllFuel fuel fs parent
        | none => (fs, none)
      match parentDone with
      | (fs1, some err) => (fs1, some err)
      | (fs1, none) =>
        match Mkdir0755 fs1 path with
        | (fs2, none) => (fs2, none)
        | (fs2, some err) =>
          match Stat fs2 path with
          | .ok dir => if dir.IsDir then (fs2, none) else (fs2, some err)
          | .error _ => (fs2, some err)

/-- Go's `os.MkdirAll(path, 0755)`. -/
def MkdirAll0755 (fs : FS) (path : String) : FS × Option GoError :=
  mkdirAllFuel (path.length + 1) fs path

/-- Go's `os.OpenFile(path, os.O_APPEND|os.O_WRONLY, 0644)`: the handle is the place
of the opened file. -/
def OpenFileAppend (fs : FS) (path : String) : Except GoError Key :=
  match fs.lookup path with
  | .error e => .error (pathError "open" path e)
  | .ok k =>
    match fs.get k with
    | none => .error (pathError "open" path .ENOENT)
    | some (.dir _) => .error (pathError "open" path .EISDIR)
    | some (.file _ perm) =>
      if perm.writable then .ok k
      else .error (pathError "open" path .EACCES)

/-- Go's `File.Write` on a handle opened with `O_APPEND`: the data goes to the end. -/
def appendTo (fs : FS) (handle : Key) (data : String) : FS × Option GoError :=
  match fs.get handle with
  | some (.file content perm) => (fs.set handle (.file (content ++ data) perm), none)
  | _ => (fs, some (pathError "write" "" .EISDIR))

/-- What reading a source to its end gives: `ioutil.ReadAll` on the reader. -/
abbrev Reader := Except GoError String

/-- Go's `os.Open`: open for reading. -/
def Open (fs : FS) (path : String) : Except GoError Reader :=
  match fs.lookup path with
  | .error e => .error (pathError "open" path e)
  | .ok k =>
    match fs.get k with
    | none => .error (pathError "open" path .ENOENT)
    | some (.dir perm) =>
      if perm.readable then .ok (.error (pathError "read" path .EISDIR))
      else .error (pathError "open" path .EACCES)
    | some (.file content perm) =>
      if perm.readable then .ok (.ok content)
      else .error (pathError "open" path .EACCES)

end os

/-- Go's `ioutil.WriteFile(path, data, 0644)`: create or truncate, then write. -/
def ioutilWriteFile (fs : FS) (path : String) (data : String) : FS × Option GoError :=
  match fs.lookup path with
  | .error e => (fs, some (os.pathError "open" path (os.createErrno fs path e)))
  | .ok k =>
    match fs.get k with
    | some (.dir _) => (fs, some (os.pathError "open" path .EISDIR))
    | some (.file _ perm) =>
      if perm.writable then (fs.set k (.file data perm), none)
      else (fs, some (os.pathError "open" path .EACCES))
    | none => os.addEntry fs "open" path k (.file data Perm.fresh)

/-! ## Package `writer` -/

namespace writer

/-- The write-mode flags (`writer/options.go`). -/
structure Options where
  Overwrite : Bool
  Append : Bool
  deriving DecidableEq, Repr

/-- A functional option (Go type `Option`). -/
abbrev OptionFn := Options → Options

/-- The option setting the overwrite flag. -/
def Overwrite (overwrite : Bool) : OptionFn :=
  fun opts => { opts with Overwrite := overwrite }

/-- The option setting the append flag. -/
def Append (appendWrite : Bool) : OptionFn :=
  fun opts => { opts with Append := appendWrite }

/-- The defaults with the given options applied in order. -/
def newOptions (options : List OptionFn) : Options :=
  options.foldl (fun opt o => o opt) { Overwrite := false, Append := false }

/-- The file writer: its flags and its destination path. -/
structure FileWriter where
  opts : Options
  path : String
  deriving DecidableEq, Repr

/-- The sentinel `ErrNoOp`. -/
def ErrNoOp : GoError := { kind := .errNoOp, msg := "nothing done" }

/-- The constructor `NewFileWriter`. -/
def NewFileWriter (path : String) (option : List OptionFn) : FileWriter :=
  { opts := newOptions option, path := path }

namespace FileWriter

/-- The method `write`. -/
def write (fw : FileWriter) (fs : FS) (data : String) : FS × Option GoError :=
  ioutilWriteFile fs fw.path data

/-- The method `appendWrite`. -/
def appendWrite (fw : FileWriter) (fs : FS) (data : String) : FS × Option GoError :=
  match os.OpenFileAppend fs fw.path with
  | .error err => (fs, some (errorsWrap err "unbale to open file for appendWrite-write"))
  | .ok f =>
    match os.appendTo fs f data with
    | (fs1, some err) => (fs1, some (errorsWrap err "unable to appendWrite-write file"))
    | (fs1, none) => (fs1, none)

/-- The method `PathExists`: everything but a not-exist error counts as existing. -/
def PathExists (fw : FileWriter) (fs : FS) : Bool :=
  match os.Stat fs fw.path with
  | .error err => !os.IsNotExist (some err)
  | .ok _ => true

/-- The method `pathCreate`. -/
def pathCreate (fw : FileWriter) (fs : FS) : FS × Option GoError :=
  os.Create fs fw.path

/-- The sentinel file of the writability test. -/
def testFile (fw : FileWriter) : String := Join [Dir fw.path, "tester"]

/-- The method `ensurePath`. -/
def ensurePath (fw : FileWriter) (fs : FS) : FS × Option GoError :=
  if fw.path = "" then (fs, some (fmtErrorf "path cannot be empty"))
  else
    let targetFolder := Dir fw.path
    let made : FS × Option GoError :=
      match os.Stat fs targetFolder with
      | .error err =>
        if os.IsNotExist (some err) then os.MkdirAll0755 fs targetFolder else (fs, none)
      | .ok _ => (fs, none)
    match made with
    | (fs1, some err) => (fs1, some (errorsWrap err "writer could not ensure target folder"))
    | (fs1, none) =>
      -- ensure permission for existing
      let testFile := Join [targetFolder, "tester"]
      let created := os.Create fs1 testFile
      let relaxed : FS × Option GoError :=
        if os.IsPermission created.2 then os.Chmod0755 created.1 targetFolder
        else (created.1, none)
      match relaxed with
      | (fs2, some err) =>
        (fs2, some (errorsWrap err "writer path not writeable and chmod failed"))
      | (fs2, none) =>
        match os.Remove fs2 testFile with
        | (fs3, some err) =>
          (fs3, some (errorsWrap err "failed to remove writer permission tester"))
        | (fs3, none) => (fs3, none)

/-- The method `WriteFile`. -/
def WriteFile (fw : FileWriter) (fs : FS) (data : String) : FS × Option GoError :=
  match fw.ensurePath fs with
  | (fs1, some err) => (fs1, some err)
  | (fs1, none) =>
    if !fw.PathExists fs1 then
      match fw.pathCreate fs1 with
      | (fs2, some err) => (fs2, some (errorsWrap err "unable to create target file"))
      | (fs2, none) => fw.write fs2 data
    else if fw.opts.Append = true ∧ fw.opts.Append = fw.opts.Overwrite then
      (fs1, some (fmtErrorf
        "appendWrite and overwrite flags are set, you have to choose one of them"))
    else if fw.opts.Overwrite then fw.write fs1 data
    else if fw.opts.Append then fw.appendWrite fs1 data
    else (fs1, some ErrNoOp)

end FileWriter

end writer

/-! ## External collaborators -/

/-- A virtual file system (`http.FileSystem`): `Open` gives a reader or an error. -/
abbrev HttpFileSystem := String → Except GoError os.Reader

/-- The collaborators the packages call and the repository does not contain: the
template engine (`text/template` with the `sprig` function library), the Go source
formatter (`go/format`) and the `goimports` process.  `Ctx` is the type of template
contexts, `F` of function maps, `T` of parsed templates. -/
structure Env (Ctx F T : Type) where
  /-- `sprig.TxtFuncMap()` -/
  sprig : F
  /-- `template.FuncMap{}` -/
  emptyFuncMap : F
  /-- `template.New(name).Funcs(f1)...Funcs(fn).Parse(text)` -/
  Parse : String → List F → String → Except GoError T
  /-- `tmpl.Execute(&buf, ctx)` and the content of the buffer -/
  Execute : T → Ctx → Except GoError String
  /-- `format.Source(data)` -/
  FormatSource : String → Except GoError String
  /-- `exec.Command("goimports", "-w", path).Run()` -/
  GoImportsCmd : FS → String → FS × Option GoError

/-! ## Package `template` -/

namespace template

/-- The constructor `NewExecutionError`. -/
def NewExecutionError (err : Option GoError) : GoError :=
  { kind := .ExecutionError, msg := "template execution failed: " ++ sprintErr err }

/-- The constructor `NewFileReadError`. -/
def NewFileReadError (err : Option GoError) : GoError :=
  { kind := .FileReadError, msg := "failed to read template file: " ++ sprintErr err }

/-- The constructor `NewCreateTemplateError`. -/
def NewCreateTemplateError (err : Option GoError) : GoError :=
  { kind := .CreateTemplateError, msg := "failed to create template struct: " ++ sprintErr err }

/-- The constructor `NewGoFormatError`. -/
def NewGoFormatError (err : Option GoError) : GoError :=
  { kind := .GoFormatError, msg := "failed to gofmt file: " ++ sprintErr err }

/-- The constructor `NewFileOpenError`. -/
def NewFileOpenError (err : Option GoError) : GoError :=
  { kind := .FileOpenError, msg := "unable to open template file: " ++ sprintErr err }

/-- The constructor `NewParseError`. -/
def NewParseError (err : Option GoError) : GoError :=
  { kind := .ParseError, msg := "unable to parse template: " ++ sprintErr err }

/-- The template options (`options.go`); a nil map or file system is `none`. -/
structure Options (F : Type) where
  Name : String
  Path : String
  GoSource : Bool
  FuncMap : Option F
  Filesystem : Option HttpFileSystem

/-- A functional option (Go type `Option`). -/
abbrev OptionFn (F : Type) := Options F → Options F

/-- The option `Name`. -/
def Name {F : Type} (name : String) : OptionFn F := fun opts => { opts with Name := name }

/-- The option `Path`. -/
def Path {F : Type} (templatePath : String) : OptionFn F :=
  fun opts => { opts with Path := templatePath }

/-- The option `GoSource`. -/
def GoSource {F : Type} (isGoSource : Bool) : OptionFn F :=
  fun opts => { opts with GoSource := isGoSource }

/-- The option `FuncMap`. -/
def FuncMap {F : Type} (funcMap : Option F) : OptionFn F :=
  fun opts => { opts with FuncMap := funcMap }

/-- The option `UseFilesystem`. -/
def UseFilesystem {F : Type} (fs : Option HttpFileSystem) : OptionFn F :=
  fun opts => { opts with Filesystem := fs }

/-- The defaults with the given options applied in order. -/
def newOptions {Ctx F T : Type} (env : Env Ctx F T) (opts : List (OptionFn F)) : Options F :=
  opts.foldl (fun opt o => o opt)
    { Name := "default_template", Path := "", GoSource := false,
      FuncMap := some env.emptyFuncMap, Filesystem := none }

/-- The default behaviour of all templates. -/
structure baseTemplate (F : Type) where
  opts : Options F

namespace baseTemplate

/-- The method `templateFileExists`.  When `os.Stat` fails with another error than
not-exist, `info` is nil and `info.IsDir()` panics. -/
def templateFileExists {F : Type} (tpl : baseTemplate F) (fs : FS) : Panics Bool :=
  if tpl.opts.Path = "" then .returns false
  else
    match os.Stat fs tpl.opts.Path with
    | .error err =>
      if os.IsNotExist (some err) then .returns false
      else .panics "invalid memory address or nil pointer dereference"
    | .ok info =>
      if info.IsDir then .returns false
      else .returns true

/-- The method `openTemplate`.  In the local branch the named result `err` is still
nil when the file does not exist. -/
def openTemplate {F : Type} (tpl : baseTemplate F) (fs : FS) :
    Panics (Except GoError os.Reader) :=
  match tpl.opts.Filesystem with
  | some vfs =>
    match vfs tpl.opts.Path with
    | .error err => .returns (.error (NewFileOpenError (some err)))
    | .ok f => .returns (.ok f)
  | none =>
    match tpl.templateFileExists fs with
    | .panics reason => .panics reason
    | .returns false => .returns (.error (NewFileOpenError none))
    | .returns true =>
      match os.Open fs tpl.opts.Path with
      | .error err => .returns (.error (NewFileOpenError (some err)))
      | .ok f => .returns (.ok f)

/-- The method `readTemplate`. -/
def readTemplate {F : Type} (tpl : baseTemplate F) (fs : FS) :
    Panics (Except GoError String) :=
  match tpl.openTemplate fs with
  | .panics reason => .panics reason
  | .returns (.error err) => .returns (.error (NewFileOpenError (some err)))
  | .returns (.ok reader) =>
    match reader with
    | .error err => .returns (.error (NewFileReadError (some err)))
    | .ok buf => .returns (.ok buf)

/-- The method `formatGoSource`. -/
def formatGoSource {Ctx F T : Type} (env : Env Ctx F T) (_tpl : baseTemplate F)
    (data : String) : Except GoError String :=
  match env.FormatSource data with
  | .error err => .error (NewGoFormatError (some err))
  | .ok formatted => .ok formatted

/-- The method `createTemplate`. -/
def createTemplate {Ctx F T : Type} (env : Env Ctx F T) (tpl : baseTemplate F)
    (templateData : String) : Except GoError T :=
  match env.Parse tpl.opts.Name (env.sprig :: tpl.opts.FuncMap.toList) templateData with
  | .error err => .error (NewParseError (some err))
  | .ok tmpl => .ok tmpl

end baseTemplate

/-- The full-file template. -/
structure FileTemplate (F : Type) extends baseTemplate F

/-- The constructor `NewFileTemplate`. -/
def NewFileTemplate {Ctx F T : Type} (env : Env Ctx F T) (options : List (OptionFn F)) :
    FileTemplate F :=
  { opts := newOptions env options }

/-- The method `FileTemplate.Render`. -/
def FileTemplate.Render {Ctx F T : Type} (env : Env Ctx F T) (tpl : FileTemplate F)
    (fs : FS) (templateContext : Ctx) : Panics (Except GoError String) :=
  match tpl.tobaseTemplate.readTemplate fs with
  | .panics reason => .panics reason
  | .returns (.error err) => .returns (.error (NewFileReadError (some err)))
  | .returns (.ok templateData) =>
    match tpl.tobaseTemplate.createTemplate env templateData with
    | .error err => .returns (.error (NewCreateTemplateError (some err)))
    | .ok tmpl =>
      -- execute template
      match env.Execute tmpl templateContext with
      | .error err => .returns (.error (NewExecutionError (some err)))
      | .ok out =>
        -- format as Go source if required
        if tpl.opts.GoSource then
          match tpl.tobaseTemplate.formatGoSource env out with
          | .error err => .returns (.error (NewGoFormatError (some err)))
          | .ok formatted => .returns (.ok formatted)
        else .returns (.ok out)

/-- The partial template. -/
structure PartialFileTemplate (F : Type) extends baseTemplate F

/-- The constructor `NewPartialFileTemplate`. -/
def NewPartialFileTemplate {Ctx F T : Type} (env : Env Ctx F T)
    (options : List (OptionFn F)) : PartialFileTemplate F :=
  { opts := newOptions env options }

/-- The self-invocation directive: the template action that calls the template of the
given name on the current context. -/
def selfInvocation (name : String) : String :=
  "\x7b\x7b template \"" ++ name ++ "\" . \x7d\x7d"

/-- The method `PartialFileTemplate.Render`.  The directive is appended to the
template data after the data was parsed. -/
def PartialFileTemplate.Render {Ctx F T : Type} (env : Env Ctx F T)
    (tpl : PartialFileTemplate F) (fs : FS) (templateContext : Ctx) :
    Panics (Except GoError String) :=
  match tpl.tobaseTemplate.readTemplate fs with
  | .panics reason => .panics reason
  | .returns (.error err) => .returns (.error (NewFileReadError (some err)))
  | .returns (.ok templateData) =>
    match tpl.tobaseTemplate.createTemplate env templateData with
    | .error err => .returns (.error (NewCreateTemplateError (some err)))
    | .ok tmpl =>
      -- in order to use the partial template definitions, we need to include them
      -- somewhere, thus we just add the template to use itself
      let _templateData := templateData ++ selfInvocation tpl.opts.Name
      match env.Execute tmpl templateContext with
      | .error err => .returns (.error (NewExecutionError (some err)))
      | .ok out =>
        -- format as Go source if required
        if tpl.opts.GoSource then
          match tpl.tobaseTemplate.formatGoSource env out with
          | .error err => .returns (.error (NewGoFormatError (some err)))
          | .ok formatted => .returns (.ok formatted)
        else .returns (.ok out)

/-- Modelled from the spec: the renderer the generator constructs, `NewFullTemplate`,
is not among the sources; it is the full-file variant of the template renderer,
configured by the same options. -/
def NewFullTemplate {Ctx F T : Type} (env : Env Ctx F T) (options : List (OptionFn F)) :
    FileTemplate F :=
  NewFileTemplate env options

end template

/-! ## Package `generator`

The generator calls the packages `template` and `writer` through an import path of
another module; they are taken to be the two packages above. -/

namespace generator

/-- The metadata needed to render a template into a specific location. -/
structure Target where
  PathTemplate : String
  GoImports : Bool
  OverwriteExisting : Bool
  TemplateName : String
  TemplatePath : String
  deriving DecidableEq, Repr

/-- The generator.  In Go `target` is a pointer: what `Run` assigns to the target
stays assigned, so `Run` returns the target. -/
structure Generator (F : Type) where
  target : Target
  name : String
  tplFilesystem : Option HttpFileSystem
  funcMap : Option F

/-- The constructor `NewGenerator`. -/
def NewGenerator {F : Type} (name : String) (target : Target)
    (templateFilesystem : Option HttpFileSystem) (funcMap : Option F) : Generator F :=
  { target := target, name := name, tplFilesystem := templateFilesystem, funcMap := funcMap }

/-- The helper `ParseString`. -/
def ParseString {Ctx F T : Type} (env : Env Ctx F T) (context : Ctx) (template : String) :
    Except GoError String :=
  match env.Parse "parse-string" [env.sprig] template with
  | .error err => .error (errorsWrap err "unable to parse Target.File as template")
  | .ok tmpl =>
    match env.Execute tmpl context with
    | .error err => .error (errorsWrap err "unable to execute Target.File template")
    | .ok buf => .ok buf

/-- The method `Target.Path`: panics if the rendering fails. -/
def Target.Path {Ctx F T : Type} (env : Env Ctx F T) (t : Target) (ctx : Ctx) :
    Panics String :=
  match ParseString env ctx t.PathTemplate with
  | .error err => .panics ("RenderedPath failed: " ++ err.msg)
  | .ok str => .returns str

/-- The method `goImports`. -/
def Generator.goImports {Ctx F T : Type} (env : Env Ctx F T) (_g : Generator F) (fs : FS)
    (path : String) : FS × Option GoError :=
  env.GoImportsCmd fs path

/-- What a call of `Run` leaves behind: the target, the file system, and the returned
error (or the panic). -/
structure RunResult where
  target : Target
  fs : FS
  result : Panics (Option GoError)

/-- The method `Generator.Run`. -/
def Generator.Run {Ctx F T : Type} (env : Env Ctx F T) (g : Generator F) (fs : FS)
    (templateContext : Ctx) (appendMode : Bool) (forceOverwrite : Bool) : RunResult :=
  let t0 : Target :=
    if forceOverwrite then { g.target with OverwriteExisting := true } else g.target
  match ParseString env templateContext t0.PathTemplate with
  | .error err => ⟨t0, fs, .returns (some err)⟩
  | .ok path =>
    let t1 : Target := { t0 with PathTemplate := path }
    match env.Parse "target-path" (env.sprig :: g.funcMap.toList) t1.PathTemplate with
    | .error err =>
      ⟨t1, fs, .returns (some (errorsWrap err "unable to parse Target.File as template"))⟩
    | .ok tmpl =>
      match env.Execute tmpl templateContext with
      | .error err =>
        ⟨t1, fs, .returns (some (errorsWrap err "unable to execute Target.File template"))⟩
      | .ok buf =>
        let t2 : Target := { t1 with PathTemplate := buf }
        let tpl := template.NewFullTemplate env
          [template.Name t2.TemplateName, template.Path t2.TemplatePath,
           template.GoSource t2.GoImports, template.UseFilesystem g.tplFilesystem,
           template.FuncMap g.funcMap]
        match tpl.Render env fs templateContext with
        | .panics reason => ⟨t2, fs, .panics reason⟩
        | .returns (.error err) =>
          ⟨t2, fs, .returns (some (errorsWrap err "unable to GenerateFull"))⟩
        | .returns (.ok rendered) =>
          let fw := writer.NewFileWriter t2.PathTemplate
            [writer.Overwrite t2.OverwriteExisting, writer.Append appendMode]
          -- write rendered target to file, ignoring ErrNoOp
          match fw.WriteFile fs rendered with
          | (fs1, some err) =>
            if err = writer.ErrNoOp then ⟨t2, fs1, .returns none⟩
            else ⟨t2, fs1, .returns (some (errorsWrap err "unable to WriteFile"))⟩
          | (fs1, none) =>
            if t2.GoImports then
              match g.goImports env fs1 t2.PathTemplate with
              | (fs2, some err) =>
                ⟨t2, fs2, .returns (some (errorsWrap err "goimports failed"))⟩
              | (fs2, none) => ⟨t2, fs2, .returns none⟩
            else ⟨t2, fs1, .returns none⟩

/-- The method `WithFuncMap`. -/
def Generator.WithFuncMap {F : Type} (g : Generator F) (funcMap : Option F) : Generator F :=
  { g with funcMap := funcMap }

end generator

/-! ## A small template engine for concrete runs

The theorems about the packages hold for every collaborator `Env`.  To run the model
on concrete inputs the following instance is used: a fragment of `text/template` with
literal text and field actions over a context of named strings. -/

namespace mini

/-- A piece of a parsed template: literal text or a field action. -/
inductive Seg where
  | text (s : String)
  | field (name : String)
  deriving DecidableEq, Repr

/-- The left delimiter character. -/
def lbrace : Char := Char.ofNat 123

/-- The right delimiter character. -/
def rbrace : Char := Char.ofNat 125

/-- The action between two delimiters: a dot followed by a field name. -/
def parseAction (body : List Char) : Except GoError Seg :=
  match body with
  | '.' :: c :: name =>
    if (c :: name).all Char.isAlphanum then .ok (.field (String.mk (c :: name)))
    else .error { kind := .external, msg := "template: bad character in action" }
  | _ => .error { kind := .external, msg := "template: unexpected action" }

/-- Where the scanner is: in text, in text after one left brace, in an action, in an
action after one right brace. -/
inductive Mode where
  | text | textBrace | action | actionBrace
  deriving DecidableEq, Repr

/-- Scanning of the template text, one character at a time: text up to the left
delimiter, an action up to the right delimiter. -/
def scan : List Char → Mode → List Char → Except GoError (List Seg)
  | [], .text, acc => .ok [.text (String.mk acc.reverse)]
  | [], .textBrace, acc => .ok [.text (String.mk (lbrace :: acc).reverse)]
  | [], .action, _ => .error { kind := .external, msg := "template: unclosed action" }
  | [], .actionBrace, _ => .error { kind := .external, msg := "template: unclosed action" }
  | c :: rest, .text, acc =>
    if c = lbrace then scan rest .textBrace acc else scan rest .text (c :: acc)
  | c :: rest, .textBrace, acc =>
    if c = lbrace then
      match scan rest .action [] with
      | .error e => .error e
      | .ok segs => .ok (.text (String.mk acc.reverse) :: segs)
    else scan rest .text (c :: lbrace :: acc)
  | c :: rest, .action, acc =>
    if c = rbrace then scan rest .actionBrace acc else scan rest .action (c :: acc)
  | c :: rest, .actionBrace, acc =>
    if c = rbrace then
      match parseAction acc.reverse, scan rest .text [] with
      | .error e, _ => .error e
      | _, .error e => .error e
      | .ok seg, .ok segs => .ok (seg :: segs)
    else scan rest .action (c :: rbrace :: acc)

/-- Parsing: the name and the function maps play no part in this fragment. -/
def Parse (_name : String) (_funcs : List Unit) (text : String) :
    Except GoError (List Seg) :=
  scan text.data .text []

/-- The value of a field in a context. -/
def lookupField (name : String) : List (String × String) → Option String
  | [] => none
  | e :: rest => if e.1 = name then some e.2 else lookupField name rest

/-- Execution: text is copied, a field is replaced by its value, an unknown field is
an error. -/
def Execute : List Seg → List (String × String) → Except GoError String
  | [], _ => .ok ""
  | .text s :: segs, ctx =>
    match Execute segs ctx with
    | .error e => .error e
    | .ok out => .ok (s ++ out)
  | .field name :: segs, ctx =>
    match lookupField name ctx, Execute segs ctx with
    | none, _ => .error { kind := .external, msg := "template: can't evaluate field " ++ name }
    | _, .error e => .error e
    | some v, .ok out => .ok (v ++ out)

/-- The formatter: accepts sources that begin with a package clause, unchanged. -/
def FormatSource (data : String) : Except GoError String :=
  if "package ".data.isPrefixOf data.data then .ok data
  else .error { kind := .external, msg := "expected 'package'" }

/-- The collaborators of the concrete runs. -/
def env : Env (List (String × String)) Unit (List Seg) :=
  { sprig := (), emptyFuncMap := (), Parse := Parse, Execute := Execute,
    FormatSource := FormatSource, GoImportsCmd := fun fs _ => (fs, none) }

/-- Permissions of a directory the process owns but may not write to. -/
def readOnly : Perm :=
  { readable := true, writable := false, executable := true, owned := true }

/-- A file system with the writable directory `/out` holding the file `tester` with
content `X`. -/
def fsOut : FS :=
  { cwd := [],
    entries :=
      [([], .dir Perm.fresh),
       (["out"], .dir Perm.fresh),
       (["tester", "out"], .file "X" Perm.fresh)] }

/-- A file system with the writable directory `/out` holding the file `a.txt` with
content `X`, and the template `/tpl/hello.tpl`. -/
def fsTarget : FS :=
  { cwd := [],
    entries :=
      [([], .dir Perm.fresh),
       (["out"], .dir Perm.fresh),
       (["a.txt", "out"], .file "X" Perm.fresh),
       (["tpl"], .dir Perm.fresh),
       (["hello.tpl", "tpl"], .file "Hello \x7b\x7b.Name\x7d\x7d" Perm.fresh)] }

/-- A file system with the directory `/tmp` holding the empty regular file `test.go`. -/
def fsTmp : FS :=
  { cwd := [],
    entries :=
      [([], .dir Perm.fresh),
       (["tmp"], .dir Perm.fresh),
       (["test.go", "tmp"], .file "" Perm.fresh)] }

/-- A file system whose writable directory `/out` holds the directory `tester`, which
holds the file `keep`. -/
def fsSentinelDir : FS :=
  { cwd := [],
    entries :=
      [([], .dir Perm.fresh),
       (["out"], .dir Perm.fresh),
       (["tester", "out"], .dir Perm.fresh),
       (["keep", "tester", "out"], .file "K" Perm.fresh)] }

/-- A file system whose directory `/out` is empty and not writable. -/
def fsLocked : FS :=
  { cwd := [], entries := [([], .dir Perm.fresh), (["out"], .dir readOnly)] }

/-- A file system with an empty writable directory `/out` and the template
`/tpl/hello.tpl`. -/
def fsEmpty : FS :=
  { cwd := [],
    entries :=
      [([], .dir Perm.fresh),
       (["out"], .dir Perm.fresh),
       (["tpl"], .dir Perm.fresh),
       (["hello.tpl", "tpl"], .file "Hello \x7b\x7b.Name\x7d\x7d" Perm.fresh)] }

/-- A file system with the template `/tpl/bad.tpl`, whose action is not closed. -/
def fsBad : FS :=
  { cwd := [],
    entries :=
      [([], .dir Perm.fresh),
       (["tpl"], .dir Perm.fresh),
       (["bad.tpl", "tpl"], .file "Hello \x7b\x7b.Name" Perm.fresh)] }

/-- A virtual file system whose files open but cannot be read. -/
def unreadable : HttpFileSystem :=
  fun _ => .ok (.error { kind := .external, msg := "unexpected EOF" })

/-- The target `/out/a.txt` of the template `/tpl/hello.tpl`, not to be overwritten. -/
def targetA : generator.Target :=
  { PathTemplate := "/out/a.txt", GoImports := false, OverwriteExisting := false,
    TemplateName := "hello", TemplatePath := "/tpl/hello.tpl" }

/-- A target whose path template has the field `A`. -/
def targetField : generator.Target :=
  { PathTemplate := "/out/\x7b\x7b.A\x7d\x7d.go", GoImports := false,
    OverwriteExisting := false, TemplateName := "hello", TemplatePath := "/tpl/hello.tpl" }

/-- A context whose field `A` holds text with template delimiters. -/
def ctxNested : List (String × String) :=
  [("A", "\x7b\x7b.B\x7d\x7d"), ("B", "x"), ("Name", "Bob")]

end mini


/-! ## The file system: reading after writing -/

theorem findEntry_filter_same (k : Key) (l : List (Key × Node)) :
    findEntry k (l.filter (fun e => !decide (e.1 = k))) = none := by
  induction l with
  | nil => simp [findEntry]
  | cons e rest ih =>
    by_cases h : e.1 = k
    · simp [List.filter, h, ih]
    · simp [List.filter, h, findEntry, ih]

theorem findEntry_filter_ne (k k1 : Key) (h : k1 ≠ k) (l : List (Key × Node)) :
    findEntry k1 (l.filter (fun e => !decide (e.1 = k))) = findEntry k1 l := by
  induction l with
  | nil => simp [findEntry]
  | cons e rest ih =>
    by_cases he : e.1 = k
    · have : e.1 ≠ k1 := fun e1 => h (e1.symm.trans he)
      rw [List.filter_cons_of_neg (by simp [he]), ih, findEntry, if_neg this]
    · rw [List.filter_cons_of_pos (by simp [he])]
      by_cases he1 : e.1 = k1
      · simp [findEntry, he1]
      · simp [findEntry, he1, ih]

@[simp] theorem FS.get_set_same (fs : FS) (k : Key) (n : Node) :
    (fs.set k n).get k = some n := by
  simp [FS.get, FS.set, findEntry]

theorem FS.get_set_ne (fs : FS) (k k1 : Key) (n : Node) (h : k1 ≠ k) :
    (fs.set k n).get k1 = fs.get k1 := by
  simp [FS.get, FS.set, findEntry, Ne.symm h]

@[simp] theorem FS.get_del_same (fs : FS) (k : Key) : (fs.del k).get k = none := by
  simp [FS.get, FS.del, findEntry_filter_same]

theorem FS.get_del_ne (fs : FS) (k k1 : Key) (h : k1 ≠ k) :
    (fs.del k).get k1 = fs.get k1 := by
  simp [FS.get, FS.del, findEntry_filter_ne k k1 h]

@[simp] theorem FS.cwd_set (fs : FS) (k : Key) (n : Node) : (fs.set k n).cwd = fs.cwd := rfl

@[simp] theorem FS.cwd_del (fs : FS) (k : Key) : (fs.del k).cwd = fs.cwd := rfl

/-- Making an entry at a place that held nothing and removing it again leaves every
place as it was. -/
theorem get_after_sentinel (fs : FS) (s : Key) (n : Node) (hs : fs.get s = none) (k : Key) :
    ((fs.set s n).del s).get k = fs.get k := by
  by_cases hk : k = s
  · subst hk; simp [hs]
  · rw [FS.get_del_ne _ _ _ hk, FS.get_set_ne _ _ _ _ hk]

/-- The walk looks only at the entries. -/
theorem walk_congr (fs1 fs2 : FS) (h : ∀ k, fs1.get k = fs2.get k) (comps : List (List Char)) :
    ∀ cur, fs1.walk cur comps = fs2.walk cur comps := by
  induction comps with
  | nil => intro cur; rfl
  | cons c rest ih =>
    intro cur
    unfold FS.walk
    rw [h cur]
    simp only [ih]

theorem lookup_congr (fs1 fs2 : FS) (hc : fs1.cwd = fs2.cwd) (h : ∀ k, fs1.get k = fs2.get k)
    (p : String) : fs1.lookup p = fs2.lookup p := by
  unfold FS.lookup
  rw [hc, walk_congr fs1 fs2 h]

/-- A successful walk is not disturbed by a new entry at a place that held nothing:
the walk went through directories only. -/
theorem walk_set_absent (fs : FS) (s : Key) (n : Node) (hs : fs.get s = none)
    (comps : List (List Char)) :
    ∀ cur k, fs.walk cur comps = .ok k → (fs.set s n).walk cur comps = .ok k := by
  induction comps with
  | nil => intro cur k h; simpa [FS.walk] using h
  | cons c rest ih =>
    intro cur k h
    unfold FS.walk at h ⊢
    have hcur : cur ≠ s := by
      intro e
      rw [e, hs] at h
      simp at h
    rw [FS.get_set_ne _ _ _ _ hcur]
    cases hg : fs.get cur with
    | none => rw [hg] at h; simp at h
    | some node =>
      cases node with
      | file content perm => rw [hg] at h; simp at h
      | dir perm =>
        rw [hg] at h
        simp only at h ⊢
        split at h
        · simp at h
        · rename_i hx
          rw [if_neg hx]
          split at h
          · rename_i hc
            rw [if_pos hc]
            exact ih _ _ h
          · rename_i hc
            rw [if_neg hc]
            split at h
            · rename_i hdd
              rw [if_pos hdd]
              exact ih _ _ h
            · rename_i hdd
              rw [if_neg hdd]
              split at h
              · simp at h
              · rename_i hlen
                rw [if_neg hlen]
                exact ih _ _ h

theorem lookup_set_absent (fs : FS) (s : Key) (n : Node) (hs : fs.get s = none)
    (p : String) (k : Key) (h : fs.lookup p = .ok k) : (fs.set s n).lookup p = .ok k := by
  unfold FS.lookup at h ⊢
  split at h
  · simp at h
  · rename_i hp
    rw [if_neg hp]
    split at h
    · simp at h
    · rename_i hl
      rw [if_neg hl]
      exact walk_set_absent fs s n hs _ _ _ h

/-! ## `os.MkdirAll`: the fuel is never used up -/

theorem parentPath_length (path parent : String) (h : os.parentPath path = some parent) :
    parent.length < path.length := by
  unfold os.parentPath at h
  simp only at h
  split at h
  · rename_i hlen
    simp only [Option.some.injEq] at h
    subst h
    have h1 : ((path.data.reverse.dropWhile (fun c => c = '/')).dropWhile
        (fun c => c ≠ '/')).length ≤ path.data.length := by
      have a := (List.dropWhile_sublist (l := path.data.reverse.dropWhile (fun c => c = '/'))
        (fun c => c ≠ '/')).length_le
      have b := (List.dropWhile_sublist (l := path.data.reverse)
        (fun c => decide (c = '/'))).length_le
      simp only [List.length_reverse] at b
      omega
    show (List.reverse _).length < path.data.length
    simp only [List.length_reverse, List.length_drop]
    omega
  · simp at h

/-- Every amount of fuel above the length of the path gives the same result. -/
theorem mkdirAllFuel_stable (n : Nat) :
    ∀ (m : Nat) (fs : FS) (path : String), path.length < n → path.length < m →
      os.mkdirAllFuel n fs path = os.mkdirAllFuel m fs path := by
  induction n with
  | zero => intro m fs path h; omega
  | succ n ih =>
    intro m fs path hn hm
    cases m with
    | zero => omega
    | succ m =>
      unfold os.mkdirAllFuel
      cases hs : os.Stat fs path with
      | ok dir => rfl
      | error e =>
        simp only
        cases hp : os.parentPath path with
        | none => rfl
        | some parent =>
          have hl := parentPath_length path parent hp
          simp only
          rw [ih m fs parent (by omega) (by omega)]

/-! ## The writability test of `ensurePath` -/

theorem cons_ne_self (a : String) (k : Key) : k ≠ a :: k := by
  intro h
  have := congrArg List.length h
  simp at this

theorem lookup_ne_empty (fs : FS) (p : String) (k : Key) (h : fs.lookup p = .ok k) :
    p ≠ "" := by
  intro e
  subst e
  simp [FS.lookup] at h

theorem Stat_dir (fs : FS) (p : String) (k : Key) (perm : Perm)
    (hl : fs.lookup p = .ok k) (h : fs.get k = some (.dir perm)) :
    os.Stat fs p = .ok { isDir := true } := by
  simp [os.Stat, hl, h]

theorem Stat_file (fs : FS) (p : String) (k : Key) (content : String) (perm : Perm)
    (hl : fs.lookup p = .ok k) (h : fs.get k = some (.file content perm)) :
    os.Stat fs p = .ok { isDir := false } := by
  simp [os.Stat, hl, h]

/-- Creating the sentinel in a directory the process may write to and search, at a
place that holds nothing. -/
theorem Create_absent (fs : FS) (p : String) (name : String) (dk : Key) (perm : Perm)
    (hl : fs.lookup p = .ok (name :: dk)) (hs : fs.get (name :: dk) = none)
    (hd : fs.get dk = some (.dir perm)) (hw : perm.writable = true)
    (hx : perm.executable = true) :
    os.Create fs p = (fs.set (name :: dk) (.file "" Perm.fresh), none) := by
  simp [os.Create, os.addEntry, hl, hs, hd, hw, hx]

/-- Removing a regular file from a directory the process may write to and search. -/
theorem Remove_file (fs : FS) (p : String) (name : String) (dk : Key) (perm fperm : Perm)
    (content : String)
    (hl : fs.lookup p = .ok (name :: dk)) (hs : fs.get (name :: dk) = some (.file content fperm))
    (hd : fs.get dk = some (.dir perm)) (hw : perm.writable = true)
    (hx : perm.executable = true) :
    os.Remove fs p = (fs.del (name :: dk), none) := by
  simp [os.Remove, hl, hs, hd, hw, hx]

/-- The run of `ensurePath` when the target folder is a directory the process may
write to and search and the sentinel path names a place in it that holds nothing: the
sentinel is made and removed, and no error is returned. -/
theorem ensurePath_of_writable (fw : writer.FileWriter) (fs : FS) (dk : Key) (perm : Perm)
    (hp : fw.path ≠ "")
    (hdl : fs.lookup (Dir fw.path) = .ok dk)
    (hd : fs.get dk = some (.dir perm)) (hw : perm.writable = true)
    (hx : perm.executable = true)
    (hsl : fs.lookup fw.testFile = .ok ("tester" :: dk))
    (hs : fs.get ("tester" :: dk) = none) :
    fw.ensurePath fs
      = ((fs.set ("tester" :: dk) (.file "" Perm.fresh)).del ("tester" :: dk), none) := by
  unfold writer.FileWriter.testFile at hsl
  have hc := Create_absent fs _ "tester" dk perm hsl hs hd hw hx
  have hr := Remove_file (fs.set ("tester" :: dk) (.file "" Perm.fresh)) _ "tester" dk perm
    Perm.fresh "" (lookup_set_absent fs _ _ hs _ _ hsl) (by simp)
    (by rw [FS.get_set_ne _ _ _ _ (cons_ne_self _ _), hd]) hw hx
  unfold writer.FileWriter.ensurePath
  rw [if_neg hp]
  simp only [Stat_dir fs (Dir fw.path) dk perm hdl hd, hc, os.IsPermission]
  simp [hr]

/-! ## `FileWriter.WriteFile` -/

theorem PathExists_of_entry (fw : writer.FileWriter) (fs : FS) (k : Key) (n : Node)
    (hl : fs.lookup fw.path = .ok k) (h : fs.get k = some n) : fw.PathExists fs = true := by
  cases n with
  | file c p => simp [writer.FileWriter.PathExists, Stat_file fs fw.path k c p hl h]
  | dir p => simp [writer.FileWriter.PathExists, Stat_dir fs fw.path k p hl h]

/-- The write decision on an existing destination when the target folder is a
directory the process may write to and search and the sentinel path names a place in
it that holds nothing: after the writability test, which leaves every entry as it was,
the flags alone decide. -/
theorem WriteFile_of_existing (fw : writer.FileWriter) (fs : FS) (data : String)
    (k dk : Key) (n : Node) (perm : Perm)
    (hex : fs.lookup fw.path = .ok k) (hn : fs.get k = some n)
    (hdl : fs.lookup (Dir fw.path) = .ok dk)
    (hd : fs.get dk = some (.dir perm)) (hw : perm.writable = true)
    (hx : perm.executable = true)
    (hsl : fs.lookup fw.testFile = .ok ("tester" :: dk))
    (hs : fs.get ("tester" :: dk) = none) :
    ∃ fsE : FS, fsE.cwd = fs.cwd ∧ (∀ k1, fsE.get k1 = fs.get k1) ∧
      fw.WriteFile fs data =
        if fw.opts.Append = true ∧ fw.opts.Append = fw.opts.Overwrite then
          (fsE, some (fmtErrorf
            "appendWrite and overwrite flags are set, you have to choose one of them"))
        else if fw.opts.Overwrite then fw.write fsE data
        else if fw.opts.Append then fw.appendWrite fsE data
        else (fsE, some writer.ErrNoOp) := by
  have hp := lookup_ne_empty fs fw.path k hex
  have hget := get_after_sentinel fs ("tester" :: dk) (.file "" Perm.fresh) hs
  refine ⟨(fs.set ("tester" :: dk) (.file "" Perm.fresh)).del ("tester" :: dk), rfl, hget, ?_⟩
  have hexE : ((fs.set ("tester" :: dk) (.file "" Perm.fresh)).del ("tester" :: dk)).lookup
      fw.path = .ok k :=
    (lookup_congr ((fs.set ("tester" :: dk) (.file "" Perm.fresh)).del ("tester" :: dk)) fs
      rfl hget fw.path).trans hex
  unfold writer.FileWriter.WriteFile
  rw [ensurePath_of_writable fw fs dk perm hp hdl hd hw hx hsl hs]
  simp only [PathExists_of_entry fw _ k n hexE (by rw [hget, hn])]
  simp

/-- Supporting lemma (C1, when the sentinel does not meet the destination): an existing
destination is left as it is when neither flag is set, every other entry as well, and
the outcome is `ErrNoOp`. -/
theorem WriteFile_noop (fw : writer.FileWriter) (fs : FS) (data : String)
    (k dk : Key) (n : Node) (perm : Perm)
    (hex : fs.lookup fw.path = .ok k) (hn : fs.get k = some n)
    (hdl : fs.lookup (Dir fw.path) = .ok dk)
    (hd : fs.get dk = some (.dir perm)) (hw : perm.writable = true)
    (hx : perm.executable = true)
    (hsl : fs.lookup fw.testFile = .ok ("tester" :: dk))
    (hs : fs.get ("tester" :: dk) = none)
    (ho : fw.opts.Overwrite = false) (ha : fw.opts.Append = false) :
    (fw.WriteFile fs data).2 = some writer.ErrNoOp ∧
      ∀ k1, (fw.WriteFile fs data).1.get k1 = fs.get k1 := by
  obtain ⟨fsE, _, hget, hW⟩ := WriteFile_of_existing fw fs data k dk n perm hex hn hdl hd hw hx
    hsl hs
  rw [hW]
  simp [ho, ha, hget]

/-- Supporting lemma (C2, when the sentinel does not meet the destination): appending
to an existing writable file succeeds and the file then holds the prior content
followed by the data. -/
theorem WriteFile_append (fw : writer.FileWriter) (fs : FS) (data prior : String)
    (k dk : Key) (fperm perm : Perm)
    (hex : fs.lookup fw.path = .ok k) (hn : fs.get k = some (.file prior fperm))
    (hfw : fperm.writable = true)
    (hdl : fs.lookup (Dir fw.path) = .ok dk)
    (hd : fs.get dk = some (.dir perm)) (hw : perm.writable = true)
    (hx : perm.executable = true)
    (hsl : fs.lookup fw.testFile = .ok ("tester" :: dk))
    (hs : fs.get ("tester" :: dk) = none)
    (ho : fw.opts.Overwrite = false) (ha : fw.opts.Append = true) :
    (fw.WriteFile fs data).2 = none ∧
      (fw.WriteFile fs data).1.get k = some (.file (prior ++ data) fperm) := by
  obtain ⟨fsE, hcwd, hget, hW⟩ := WriteFile_of_existing fw fs data k dk _ perm hex hn hdl hd hw
    hx hsl hs
  have hexE : fsE.lookup fw.path = .ok k := by rw [lookup_congr fsE fs hcwd hget, hex]
  rw [hW]
  simp [ho, ha, writer.FileWriter.appendWrite, os.OpenFileAppend, os.appendTo, hexE, hget,
    hn, hfw]

/-- Supporting lemma (C5): overwriting an existing writable file replaces its content
by the data. -/
theorem WriteFile_overwrite (fw : writer.FileWriter) (fs : FS) (data prior : String)
    (k dk : Key) (fperm perm : Perm)
    (hex : fs.lookup fw.path = .ok k) (hn : fs.get k = some (.file prior fperm))
    (hfw : fperm.writable = true)
    (hdl : fs.lookup (Dir fw.path) = .ok dk)
    (hd : fs.get dk = some (.dir perm)) (hw : perm.writable = true)
    (hx : perm.executable = true)
    (hsl : fs.lookup fw.testFile = .ok ("tester" :: dk))
    (hs : fs.get ("tester" :: dk) = none)
    (ho : fw.opts.Overwrite = true) (ha : fw.opts.Append = false) :
    (fw.WriteFile fs data).2 = none ∧
      (fw.WriteFile fs data).1.get k = some (.file data fperm) := by
  obtain ⟨fsE, hcwd, hget, hW⟩ := WriteFile_of_existing fw fs data k dk _ perm hex hn hdl hd hw
    hx hsl hs
  have hexE : fsE.lookup fw.path = .ok k := by rw [lookup_congr fsE fs hcwd hget, hex]
  rw [hW]
  simp [ho, ha, writer.FileWriter.write, ioutilWriteFile, hexE, hget, hn, hfw]

/-- Supporting lemma (C3, when the sentinel meets no entry): a destination that names
a place holding nothing, directly in the target folder, is created with exactly the
content, whatever the flags. -/
theorem WriteFile_creates (fw : writer.FileWriter) (fs : FS) (data : String)
    (name : String) (dk : Key) (perm : Perm)
    (hex : fs.lookup fw.path = .ok (name :: dk)) (hn : fs.get (name :: dk) = none)
    (hdl : fs.lookup (Dir fw.path) = .ok dk)
    (hd : fs.get dk = some (.dir perm)) (hw : perm.writable = true)
    (hx : perm.executable = true)
    (hsl : fs.lookup fw.testFile = .ok ("tester" :: dk))
    (hs : fs.get ("tester" :: dk) = none) :
    (fw.WriteFile fs data).2 = none ∧
      (fw.WriteFile fs data).1.get (name :: dk) = some (.file data Perm.fresh) := by
  have hp := lookup_ne_empty fs fw.path _ hex
  have hget := get_after_sentinel fs ("tester" :: dk) (.file "" Perm.fresh) hs
  have hexE : ((fs.set ("tester" :: dk) (.file "" Perm.fresh)).del ("tester" :: dk)).lookup
      fw.path = .ok (name :: dk) :=
    (lookup_congr ((fs.set ("tester" :: dk) (.file "" Perm.fresh)).del ("tester" :: dk)) fs
      rfl hget fw.path).trans hex
  have hexists : fw.PathExists
      ((fs.set ("tester" :: dk) (.file "" Perm.fresh)).del ("tester" :: dk)) = false := by
    simp [writer.FileWriter.PathExists, os.Stat, hexE, hget, hn, os.IsNotExist, os.pathError]
  unfold writer.FileWriter.WriteFile
  rw [ensurePath_of_writable fw fs dk perm hp hdl hd hw hx hsl hs]
  have hc := Create_absent _ fw.path name dk perm hexE (by rw [hget, hn]) (by rw [hget, hd]) hw hx
  have hl2 := lookup_set_absent _ (name :: dk) (.file "" Perm.fresh) (by rw [hget, hn]) _ _ hexE
  simp only [hexists, writer.FileWriter.pathCreate, hc, writer.FileWriter.write,
    ioutilWriteFile, hl2, FS.get_set_same]
  simp [Perm.fresh]

/-- C1 (evaluated at the failing input): the destination `/out/tester` exists with
content `X` in the writable directory `/out`.  With neither flag set `WriteFile`
returns nil, not `ErrNoOp`, and the file then holds the data `Y`: the writability test
of `ensurePath` truncated and removed the destination, which was then created anew. -/
theorem C1_sentinel_named_destination_is_rewritten :
    mini.fsOut.get ["tester", "out"] = some (.file "X" Perm.fresh) ∧
      ((writer.NewFileWriter "/out/tester" []).WriteFile mini.fsOut "Y").2 = none ∧
      ((writer.NewFileWriter "/out/tester" []).WriteFile mini.fsOut "Y").1.get ["tester", "out"]
        = some (.file "Y" Perm.fresh) := by
  decide

/-- C2 (evaluated at the failing input): the destination `/out/tester` exists with
content `X` in the writable directory `/out`.  With the append flag set `WriteFile`
returns nil and the file then holds `Y`, not `XY`: the prior content was lost in the
writability test of `ensurePath`. -/
theorem C2_sentinel_named_destination_loses_prior_content :
    mini.fsOut.get ["tester", "out"] = some (.file "X" Perm.fresh) ∧
      ((writer.NewFileWriter "/out/tester" [writer.Append true]).WriteFile mini.fsOut "Y").2
        = none ∧
      ((writer.NewFileWriter "/out/tester" [writer.Append true]).WriteFile mini.fsOut "Y").1.get
        ["tester", "out"] = some (.file "Y" Perm.fresh) := by
  decide

/-- C3 (evaluated at the failing input): the destination `/out/a.txt` does not exist
and its parent directory `/out` exists and is writable, but `/out` holds a non-empty
directory named `tester`.  `WriteFile` returns the error of the writability test,
with either setting of the overwrite flag, and creates nothing: creating the sentinel
fails on the directory, which is ignored, and removing the sentinel fails because the
directory is not empty. -/
theorem C3_sentinel_directory_blocks_creation :
    os.Stat mini.fsSentinelDir "/out/a.txt"
        = .error (os.pathError "stat" "/out/a.txt" .ENOENT) ∧
      mini.fsSentinelDir.lookup "/out" = .ok ["out"] ∧
      mini.fsSentinelDir.get ["out"] = some (.dir Perm.fresh) ∧
      ((writer.NewFileWriter "/out/a.txt" []).WriteFile mini.fsSentinelDir "Y").2
        = some (errorsWrap (os.pathError "remove" "/out/tester" .ENOTEMPTY)
            "failed to remove writer permission tester") ∧
      ((writer.NewFileWriter "/out/a.txt" []).WriteFile mini.fsSentinelDir "Y").1.get
        ["a.txt", "out"] = none ∧
      ((writer.NewFileWriter "/out/a.txt" [writer.Overwrite true]).WriteFile
        mini.fsSentinelDir "Y").2
        = some (errorsWrap (os.pathError "remove" "/out/tester" .ENOTEMPTY)
            "failed to remove writer permission tester") ∧
      ((writer.NewFileWriter "/out/a.txt" [writer.Overwrite true]).WriteFile
        mini.fsSentinelDir "Y").1.get ["a.txt", "out"] = none := by
  decide

/-- Supporting evaluation (C3): a destination path that ends in a separator and names
nothing, `/out/sub/`.  Its directory `Dir path` is `/out/sub`, which `ensurePath`
makes; the path then names that directory, so the destination counts as existing and
the outcome is `ErrNoOp`; no file is created. -/
theorem WriteFile_on_trailing_separator :
    os.Stat mini.fsTarget "/out/sub/"
        = .error (os.pathError "stat" "/out/sub/" .ENOENT) ∧
      Dir "/out/sub/" = "/out/sub" ∧
      ((writer.NewFileWriter "/out/sub/" []).WriteFile mini.fsTarget "Y").2
        = some writer.ErrNoOp ∧
      ((writer.NewFileWriter "/out/sub/" []).WriteFile mini.fsTarget "Y").1.get ["sub", "out"]
        = some (.dir Perm.fresh) := by
  decide

/-- C4 (counterexample): with both flags set and no entry at the destination
`/out/new.txt`, `WriteFile` returns nil and the destination holds the data. -/
theorem C4_both_flags_on_missing_destination_writes :
    mini.fsEmpty.get ["new.txt", "out"] = none ∧
      ((writer.NewFileWriter "/out/new.txt"
        [writer.Overwrite true, writer.Append true]).WriteFile mini.fsEmpty "Y").2 = none ∧
      ((writer.NewFileWriter "/out/new.txt"
        [writer.Overwrite true, writer.Append true]).WriteFile mini.fsEmpty "Y").1.get
        ["new.txt", "out"] = some (.file "Y" Perm.fresh) := by
  decide

/-- C4 (amended): let the destination path name an existing entry (the system's lookup
of the path ends at a place `k` that holds an entry), let `Dir path` name a directory
`dk` that the process may write to and search, and let the sentinel path
`Join(Dir path, "tester")` name the place `tester` in `dk`, which holds nothing.  Then
`WriteFile` with both flags set returns the configuration error for every content, and
every place of the file system holds afterwards what it held before. -/
theorem C4_both_flags_on_existing_destination (fw : writer.FileWriter) (fs : FS)
    (data : String) (k dk : Key) (n : Node) (perm : Perm)
    (hex : fs.lookup fw.path = .ok k) (hn : fs.get k = some n)
    (hdl : fs.lookup (Dir fw.path) = .ok dk)
    (hd : fs.get dk = some (.dir perm)) (hw : perm.writable = true)
    (hx : perm.executable = true)
    (hsl : fs.lookup fw.testFile = .ok ("tester" :: dk))
    (hs : fs.get ("tester" :: dk) = none)
    (ho : fw.opts.Overwrite = true) (ha : fw.opts.Append = true) :
    (fw.WriteFile fs data).2 = some (fmtErrorf
        "appendWrite and overwrite flags are set, you have to choose one of them") ∧
      ∀ k1, (fw.WriteFile fs data).1.get k1 = fs.get k1 := by
  obtain ⟨fsE, _, hget, hW⟩ := WriteFile_of_existing fw fs data k dk n perm hex hn hdl hd hw hx
    hsl hs
  rw [hW]
  simp [ho, ha, hget]

/-- C4 (witness): the existing destination `/out/a.txt` in the writable directory
`/out`, both flags set. -/
theorem C4_both_flags_on_existing_destination_witness :
    mini.fsTarget.lookup "/out/a.txt" = .ok ["a.txt", "out"] ∧
      mini.fsTarget.get ["a.txt", "out"] = some (.file "X" Perm.fresh) ∧
      ((writer.NewFileWriter "/out/a.txt"
        [writer.Overwrite true, writer.Append true]).WriteFile mini.fsTarget "Y").2 =
        some (fmtErrorf
          "appendWrite and overwrite flags are set, you have to choose one of them") ∧
      ∀ k1, ((writer.NewFileWriter "/out/a.txt"
        [writer.Overwrite true, writer.Append true]).WriteFile mini.fsTarget "Y").1.get k1
          = mini.fsTarget.get k1 :=
  ⟨by decide, by decide,
    C4_both_flags_on_existing_destination
      (writer.NewFileWriter "/out/a.txt" [writer.Overwrite true, writer.Append true])
      mini.fsTarget "Y" ["a.txt", "out"] ["out"] (.file "X" Perm.fresh) Perm.fresh
      (by decide) (by decide) (by decide) (by decide) rfl rfl (by decide) (by decide)
      (by decide) (by decide)⟩

/-- Supporting evaluation (C4): the destination `/out/a.txt` exists, but the path
`/out/sub/../a.txt` goes through the missing directory `/out/sub` and names nothing
for the system.  `WriteFile` with both flags set takes the branch of a missing
destination and fails to create the file. -/
theorem WriteFile_through_missing_directory :
    os.Stat mini.fsTarget "/out/sub/../a.txt"
        = .error (os.pathError "stat" "/out/sub/../a.txt" .ENOENT) ∧
      ((writer.NewFileWriter "/out/sub/../a.txt"
        [writer.Overwrite true, writer.Append true]).WriteFile mini.fsTarget "Y").2
        = some (errorsWrap (os.pathError "open" "/out/sub/../a.txt" .ENOENT)
            "unable to create target file") := by
  decide

/-- C9 (evaluated at the failing input): the directory `/out` is owned by the process
but not writable and holds no sentinel.  Creating the sentinel fails with a permission
error and the relaxation of the directory's permissions succeeds (the directory is
writable afterwards), yet `ensurePath` returns an error: the creation is not tried
again and removing the sentinel, which was never made, fails. -/
theorem C9_no_retry_after_permission_repair :
    os.IsPermission (os.Create mini.fsLocked "/out/tester").2 = true ∧
      (os.Chmod0755 mini.fsLocked "/out").2 = none ∧
      ((writer.NewFileWriter "/out/a.txt" []).ensurePath mini.fsLocked).1.get ["out"]
        = some (.dir Perm.fresh) ∧
      ((writer.NewFileWriter "/out/a.txt" []).ensurePath mini.fsLocked).2
        = some (errorsWrap (os.pathError "remove" "/out/tester" .ENOENT)
            "failed to remove writer permission tester") := by
  decide

/-! ## `Generator.Run` -/

/-- The flag of the target after `Run`: set if it was set or the override was given. -/
theorem Run_target_flag {Ctx F T : Type} (env : Env Ctx F T)
    (g : generator.Generator F) (fs : FS) (ctx : Ctx) (appendMode forceOverwrite : Bool) :
    (g.Run env fs ctx appendMode forceOverwrite).target.OverwriteExisting
      = (forceOverwrite || g.target.OverwriteExisting) := by
  unfold generator.Generator.Run
  cases forceOverwrite <;>
  · simp only [if_true, if_false, Bool.false_eq_true, Bool.true_or, Bool.false_or]
    repeat' split
    all_goals rfl

/-- The write of `Run`: when the path and the content render, the content goes to a
`FileWriter` on the rendered path whose overwrite flag is set if the target's flag was
set or the override was given; `goimports` runs afterwards if requested and the write
returned nil. -/
theorem Run_writes_with {Ctx F T : Type} (env : Env Ctx F T)
    (g : generator.Generator F) (fs : FS) (ctx : Ctx) (appendMode forceOverwrite : Bool)
    (path buf rendered : String) (tmpl : T)
    (h1 : generator.ParseString env ctx g.target.PathTemplate = .ok path)
    (h2 : env.Parse "target-path" (env.sprig :: g.funcMap.toList) path = .ok tmpl)
    (h3 : env.Execute tmpl ctx = .ok buf)
    (h4 : (template.NewFullTemplate env
        [template.Name g.target.TemplateName, template.Path g.target.TemplatePath,
         template.GoSource g.target.GoImports, template.UseFilesystem g.tplFilesystem,
         template.FuncMap g.funcMap]).Render env fs ctx = .returns (.ok rendered)) :
    (g.Run env fs ctx appendMode forceOverwrite).fs =
      if ((writer.NewFileWriter buf
            [writer.Overwrite (forceOverwrite || g.target.OverwriteExisting),
             writer.Append appendMode]).WriteFile fs rendered).2 = none ∧
          g.target.GoImports = true then
        (env.GoImportsCmd ((writer.NewFileWriter buf
            [writer.Overwrite (forceOverwrite || g.target.OverwriteExisting),
             writer.Append appendMode]).WriteFile fs rendered).1 buf).1
      else
        ((writer.NewFileWriter buf
            [writer.Overwrite (forceOverwrite || g.target.OverwriteExisting),
             writer.Append appendMode]).WriteFile fs rendered).1 := by
  unfold generator.Generator.Run
  cases forceOverwrite <;>
  · simp only [if_true, if_false, Bool.false_eq_true, Bool.true_or, Bool.false_or, h1, h2, h3,
      h4, generator.Generator.goImports]
    cases hw : (writer.NewFileWriter buf
        [writer.Overwrite _, writer.Append appendMode]).WriteFile fs rendered with
    | mk fs1 err =>
      cases err with
      | some e =>
        simp only [Option.some_ne_none, false_and, if_false, reduceCtorEq]
        split <;> rfl
      | none =>
        cases hgi : g.target.GoImports with
        | false => simp
        | true =>
          simp only [true_and, if_true]
          cases hcmd : env.GoImportsCmd fs1 buf with
          | mk fs2 err2 => cases err2 <;> rfl

/-- C5 (counterexample): the target `/out/a.txt` is configured not to be overwritten
and exists with content `X`.  After `Run` with `forceOverwrite = true` the target's
`OverwriteExisting` flag is true, and a following `Run` on the same target with
`forceOverwrite = false` overwrites the destination. -/
theorem C5_force_overwrite_persists_example :
    mini.targetA.OverwriteExisting = false ∧
      ((generator.NewGenerator "g" mini.targetA none none).Run mini.env mini.fsTarget
        [("Name", "Bob")] false true).target.OverwriteExisting = true ∧
      ((generator.NewGenerator "g"
          ((generator.NewGenerator "g" mini.targetA none none).Run mini.env mini.fsTarget
            [("Name", "Bob")] false true).target none none).Run mini.env
          ((generator.NewGenerator "g" mini.targetA none none).Run mini.env mini.fsTarget
            [("Name", "Bob")] false true).fs
          [("Name", "Eve")] false false).fs.get ["a.txt", "out"]
        = some (.file "Hello Eve" Perm.fresh) := by
  decide

/-- C5 (amended): `Run` with `forceOverwrite = true` sets the target's
`OverwriteExisting` flag, and the flag is set when `Run` returns, whatever the
outcome.  When the path and the content render, that call hands the content to a
`FileWriter` built with `Overwrite(true)` and `Append(appendMode)`; and so does every
following `Run` with `forceOverwrite = false` on the same target, on any file system,
context and append mode on which its path and content render: the override is not
limited to one call.  (`goimports` runs on the written path afterwards if the target
asks for it and the write returned nil.)  In particular such a following `Run` with
`appendMode = false` replaces the content of an existing writable destination by the
rendered content, when the target does not ask for `goimports`, the directory of the
destination is one the process may write to and search and the sentinel path names a
place in it that holds nothing. -/
theorem C5_force_overwrite_sets_the_flag {Ctx F T : Type} (env : Env Ctx F T)
    (g : generator.Generator F) (fs : FS) (ctx : Ctx) (appendMode : Bool) :
    (g.Run env fs ctx appendMode true).target.OverwriteExisting = true ∧
    (∀ (path buf rendered : String) (tmpl : T),
      generator.ParseString env ctx g.target.PathTemplate = .ok path →
      env.Parse "target-path" (env.sprig :: g.funcMap.toList) path = .ok tmpl →
      env.Execute tmpl ctx = .ok buf →
      (template.NewFullTemplate env
        [template.Name g.target.TemplateName, template.Path g.target.TemplatePath,
         template.GoSource g.target.GoImports, template.UseFilesystem g.tplFilesystem,
         template.FuncMap g.funcMap]).Render env fs ctx = .returns (.ok rendered) →
      (g.Run env fs ctx appendMode true).fs =
        if ((writer.NewFileWriter buf
              [writer.Overwrite true, writer.Append appendMode]).WriteFile fs rendered).2 = none ∧
            g.target.GoImports = true then
          (env.GoImportsCmd ((writer.NewFileWriter buf
              [writer.Overwrite true, writer.Append appendMode]).WriteFile fs rendered).1 buf).1
        else
          ((writer.NewFileWriter buf
              [writer.Overwrite true, writer.Append appendMode]).WriteFile fs rendered).1) ∧
    (∀ (fs2 : FS) (ctx2 : Ctx) (appendMode2 : Bool) (path buf rendered : String) (tmpl : T),
      generator.ParseString env ctx2
        (g.Run env fs ctx appendMode true).target.PathTemplate = .ok path →
      env.Parse "target-path" (env.sprig :: g.funcMap.toList) path = .ok tmpl →
      env.Execute tmpl ctx2 = .ok buf →
      (template.NewFullTemplate env
        [template.Name g.target.TemplateName, template.Path g.target.TemplatePath,
         template.GoSource g.target.GoImports, template.UseFilesystem g.tplFilesystem,
         template.FuncMap g.funcMap]).Render env fs2 ctx2 = .returns (.ok rendered) →
      (generator.Generator.Run env
          { g with target := (g.Run env fs ctx appendMode true).target }
          fs2 ctx2 appendMode2 false).fs =
        if ((writer.NewFileWriter buf
              [writer.Overwrite true, writer.Append appendMode2]).WriteFile fs2 rendered).2
              = none ∧ g.target.GoImports = true then
          (env.GoImportsCmd ((writer.NewFileWriter buf
              [writer.Overwrite true, writer.Append appendMode2]).WriteFile fs2 rendered).1
            buf).1
        else
          ((writer.NewFileWriter buf
              [writer.Overwrite true, writer.Append appendMode2]).WriteFile fs2 rendered).1) ∧
    (∀ (fs2 : FS) (ctx2 : Ctx) (path buf rendered prior : String) (tmpl : T) (k dk : Key)
        (fperm perm : Perm),
      generator.ParseString env ctx2
        (g.Run env fs ctx appendMode true).target.PathTemplate = .ok path →
      env.Parse "target-path" (env.sprig :: g.funcMap.toList) path = .ok tmpl →
      env.Execute tmpl ctx2 = .ok buf →
      (template.NewFullTemplate env
        [template.Name g.target.TemplateName, template.Path g.target.TemplatePath,
         template.GoSource g.target.GoImports, template.UseFilesystem g.tplFilesystem,
         template.FuncMap g.funcMap]).Render env fs2 ctx2 = .returns (.ok rendered) →
      g.target.GoImports = false →
      fs2.lookup buf = .ok k → fs2.get k = some (.file prior fperm) → fperm.writable = true →
      fs2.lookup (Dir buf) = .ok dk → fs2.get dk = some (.dir perm) →
      perm.writable = true → perm.executable = true →
      fs2.lookup (Join [Dir buf, "tester"]) = .ok ("tester" :: dk) →
      fs2.get ("tester" :: dk) = none →
      (generator.Generator.Run env
          { g with target := (g.Run env fs ctx appendMode true).target }
          fs2 ctx2 false false).fs.get k = some (.file rendered fperm)) := by
  have hflag := Run_target_flag env g fs ctx appendMode true
  have hkeep : (g.Run env fs ctx appendMode true).target.TemplateName = g.target.TemplateName ∧
      (g.Run env fs ctx appendMode true).target.TemplatePath = g.target.TemplatePath ∧
      (g.Run env fs ctx appendMode true).target.GoImports = g.target.GoImports := by
    unfold generator.Generator.Run
    simp only [if_true]
    repeat' split
    all_goals exact ⟨rfl, rfl, rfl⟩
  have hnext : ∀ (fs2 : FS) (ctx2 : Ctx) (appendMode2 : Bool) (path buf rendered : String)
      (tmpl : T),
      generator.ParseString env ctx2
        (g.Run env fs ctx appendMode true).target.PathTemplate = .ok path →
      env.Parse "target-path" (env.sprig :: g.funcMap.toList) path = .ok tmpl →
      env.Execute tmpl ctx2 = .ok buf →
      (template.NewFullTemplate env
        [template.Name g.target.TemplateName, template.Path g.target.TemplatePath,
         template.GoSource g.target.GoImports, template.UseFilesystem g.tplFilesystem,
         template.FuncMap g.funcMap]).Render env fs2 ctx2 = .returns (.ok rendered) →
      (generator.Generator.Run env
          { g with target := (g.Run env fs ctx appendMode true).target }
          fs2 ctx2 appendMode2 false).fs =
        if ((writer.NewFileWriter buf
              [writer.Overwrite true, writer.Append appendMode2]).WriteFile fs2 rendered).2
              = none ∧ g.target.GoImports = true then
          (env.GoImportsCmd ((writer.NewFileWriter buf
              [writer.Overwrite true, writer.Append appendMode2]).WriteFile fs2 rendered).1
            buf).1
        else
          ((writer.NewFileWriter buf
              [writer.Overwrite true, writer.Append appendMode2]).WriteFile fs2 rendered).1 := by
    intro fs2 ctx2 appendMode2 path buf rendered tmpl h1 h2 h3 h4
    have h := Run_writes_with env
      { g with target := (g.Run env fs ctx appendMode true).target }
      fs2 ctx2 appendMode2 false path buf rendered tmpl h1 h2 h3
      (by simp only [hkeep.1, hkeep.2.1, hkeep.2.2]; exact h4)
    simp only [hflag, hkeep.2.2, Bool.true_or, Bool.or_true, Bool.false_or] at h
    exact h
  refine ⟨by simpa using hflag, ?_, hnext, ?_⟩
  · intro path buf rendered tmpl h1 h2 h3 h4
    simpa using Run_writes_with env g fs ctx appendMode true path buf rendered tmpl h1 h2 h3 h4
  · intro fs2 ctx2 path buf rendered prior tmpl k dk fperm perm h1 h2 h3 h4 hgi hex hn hfw hdl
      hd hw hx hsl hs
    rw [hnext fs2 ctx2 false path buf rendered tmpl h1 h2 h3 h4, hgi]
    simp only [Bool.false_eq_true, and_false, if_false]
    exact (WriteFile_overwrite
      (writer.NewFileWriter buf [writer.Overwrite true, writer.Append false]) fs2 rendered prior
      k dk fperm perm hex hn hfw hdl hd hw hx hsl hs rfl rfl).2

/-- C5 (witness): the target `/out/a.txt`, configured not to be overwritten, on a file
system where it exists with content `X`.  The call with the override hands `Hello Bob`
to a writer with `Overwrite(true)`, and the following call without the override, on
the file system the first call left, replaces the content by `Hello Eve`. -/
theorem C5_force_overwrite_sets_the_flag_witness :
    ((generator.NewGenerator "g" mini.targetA none none).Run mini.env mini.fsTarget
        [("Name", "Bob")] false true).fs =
      ((writer.NewFileWriter "/out/a.txt"
        [writer.Overwrite true, writer.Append false]).WriteFile mini.fsTarget "Hello Bob").1 ∧
    (generator.Generator.Run mini.env
        { generator.NewGenerator "g" mini.targetA none none with
          target := ((generator.NewGenerator "g" mini.targetA none none).Run mini.env
            mini.fsTarget [("Name", "Bob")] false true).target }
        ((generator.NewGenerator "g" mini.targetA none none).Run mini.env mini.fsTarget
          [("Name", "Bob")] false true).fs
        [("Name", "Eve")] false false).fs.get ["a.txt", "out"]
      = some (.file "Hello Eve" Perm.fresh) :=
  ⟨(C5_force_overwrite_sets_the_flag mini.env (generator.NewGenerator "g" mini.targetA none none)
      mini.fsTarget [("Name", "Bob")] false).2.1 "/out/a.txt" "/out/a.txt" "Hello Bob"
      [.text "/out/a.txt"] (by decide) (by decide) (by decide) (by decide),
   (C5_force_overwrite_sets_the_flag mini.env (generator.NewGenerator "g" mini.targetA none none)
      mini.fsTarget [("Name", "Bob")] false).2.2.2
      ((generator.NewGenerator "g" mini.targetA none none).Run mini.env mini.fsTarget
        [("Name", "Bob")] false true).fs
      [("Name", "Eve")] "/out/a.txt" "/out/a.txt" "Hello Eve" "Hello Bob"
      [.text "/out/a.txt"] ["a.txt", "out"] ["out"] Perm.fresh Perm.fresh
      (by decide) (by decide) (by decide) (by decide) (by decide) (by decide) (by decide)
      (by decide) (by decide) (by decide) (by decide) (by decide) (by decide) (by decide)⟩

/-- Supporting lemma (C6): whenever both renderings of the path succeed, the path that
`Run` stores in the target is the rendering of the rendering of the path template. -/
theorem Run_stores_second_rendering {Ctx F T : Type} (env : Env Ctx F T)
    (g : generator.Generator F) (fs : FS) (ctx : Ctx) (appendMode forceOverwrite : Bool)
    (path buf : String) (tmpl : T)
    (h1 : generator.ParseString env ctx g.target.PathTemplate = .ok path)
    (h2 : env.Parse "target-path" (env.sprig :: g.funcMap.toList) path = .ok tmpl)
    (h3 : env.Execute tmpl ctx = .ok buf) :
    (g.Run env fs ctx appendMode forceOverwrite).target.PathTemplate = buf := by
  unfold generator.Generator.Run
  cases forceOverwrite <;>
  · simp only [if_true, if_false, Bool.false_eq_true, h1, h2, h3]
    repeat' split
    all_goals rfl

/-- C6 (evaluated at the failing input): the path template has the field `A` and the
context gives `A` a text with template delimiters.  `ParseString` and `Target.Path`
render the path template once; `Run` renders the result a second time, stores that
second text in `Target.PathTemplate` and writes there. -/
theorem C6_path_template_is_rendered_twice :
    generator.ParseString mini.env mini.ctxNested mini.targetField.PathTemplate
        = .ok "/out/\x7b\x7b.B\x7d\x7d.go" ∧
      mini.targetField.Path mini.env mini.ctxNested
        = .returns "/out/\x7b\x7b.B\x7d\x7d.go" ∧
      ((generator.NewGenerator "g" mini.targetField none none).Run mini.env mini.fsEmpty
        mini.ctxNested false false).result = .returns none ∧
      ((generator.NewGenerator "g" mini.targetField none none).Run mini.env mini.fsEmpty
        mini.ctxNested false false).target.PathTemplate = "/out/x.go" ∧
      ((generator.NewGenerator "g" mini.targetField none none).Run mini.env mini.fsEmpty
        mini.ctxNested false false).fs.get ["x.go", "out"]
        = some (.file "Hello Bob" Perm.fresh) ∧
      ((generator.NewGenerator "g" mini.targetField none none).Run mini.env mini.fsEmpty
        mini.ctxNested false false).fs.get ["\x7b\x7b.B\x7d\x7d.go", "out"] = none := by
  decide

/-! ## The template renderer -/

/-- The partial renderer computes what the full-file renderer computes. -/
theorem Partial_Render_eq {Ctx F T : Type} (env : Env Ctx F T) (b : template.baseTemplate F)
    (fs : FS) (ctx : Ctx) :
    template.PartialFileTemplate.Render env ⟨b⟩ fs ctx
      = template.FileTemplate.Render env ⟨b⟩ fs ctx := rfl

/-- The category of every error of the full-file renderer, by the step that failed. -/
theorem FileTemplate_Render_error_kind {Ctx F T : Type} (env : Env Ctx F T)
    (b : template.baseTemplate F) (fs : FS) (ctx : Ctx) (err : GoError)
    (h : template.FileTemplate.Render env ⟨b⟩ fs ctx = .returns (.error err)) :
    err.kind ≠ .FileOpenError ∧
    (err.kind = .FileReadError ↔
      ((∃ e, b.openTemplate fs = .returns (.error e)) ∨
        (∃ e, b.openTemplate fs = .returns (.ok (.error e))))) ∧
    (err.kind = .CreateTemplateError ↔
      ∃ data e, b.readTemplate fs = .returns (.ok data) ∧
        b.createTemplate env data = .error e) ∧
    (err.kind = .ExecutionError ↔
      ∃ data tmpl e, b.readTemplate fs = .returns (.ok data) ∧
        b.createTemplate env data = .ok tmpl ∧ env.Execute tmpl ctx = .error e) ∧
    (err.kind = .GoFormatError ↔
      ∃ data tmpl out e, b.readTemplate fs = .returns (.ok data) ∧
        b.createTemplate env data = .ok tmpl ∧ env.Execute tmpl ctx = .ok out ∧
        b.opts.GoSource = true ∧ env.FormatSource out = .error e) := by
  unfold template.FileTemplate.Render at h
  simp only at h
  cases hr : b.readTemplate fs with
  | panics reason => rw [hr] at h; simp at h
  | returns r =>
    rw [hr] at h
    cases r with
    | error e =>
      simp only [Panics.returns.injEq, Except.error.injEq] at h
      subst h
      have ho : (∃ e, b.openTemplate fs = .returns (.error e)) ∨
          (∃ e, b.openTemplate fs = .returns (.ok (.error e))) := by
        unfold template.baseTemplate.readTemplate at hr
        cases hopen : b.openTemplate fs with
        | panics reason => rw [hopen] at hr; simp at hr
        | returns o =>
          cases o with
          | error e1 => exact Or.inl ⟨e1, rfl⟩
          | ok reader =>
            cases reader with
            | error e1 => exact Or.inr ⟨e1, rfl⟩
            | ok buf => rw [hopen] at hr; simp at hr
      simp [template.NewFileReadError, ho]
    | ok data =>
      have hno : ¬ ((∃ e, b.openTemplate fs = .returns (.error e)) ∨
          (∃ e, b.openTemplate fs = .returns (.ok (.error e)))) := by
        unfold template.baseTemplate.readTemplate at hr
        rintro (⟨e, he⟩ | ⟨e, he⟩) <;> rw [he] at hr <;> simp at hr
      simp only at h
      cases hc : b.createTemplate env data with
      | error e =>
        rw [hc] at h
        simp only [Panics.returns.injEq, Except.error.injEq] at h
        subst h
        simp [template.NewCreateTemplateError, hno, hc]
      | ok tmpl =>
        rw [hc] at h
        simp only at h
        cases hx : env.Execute tmpl ctx with
        | error e =>
          rw [hx] at h
          simp only [Panics.returns.injEq, Except.error.injEq] at h
          subst h
          simp [template.NewExecutionError, hno, hc, hx]
        | ok out =>
          rw [hx] at h
          simp only at h
          cases hg : b.opts.GoSource with
          | false => simp [hg] at h
          | true =>
            simp only [hg, if_true] at h
            unfold template.baseTemplate.formatGoSource at h
            cases hf : env.FormatSource out with
            | ok formatted => rw [hf] at h; simp at h
            | error e =>
              rw [hf] at h
              simp only [Panics.returns.injEq, Except.error.injEq] at h
              subst h
              simp [template.NewGoFormatError, hno, hc, hx, hf]

/-- What the full-file renderer returns for each failing step. -/
theorem FileTemplate_Render_causes {Ctx F T : Type} (env : Env Ctx F T)
    (b : template.baseTemplate F) (fs : FS) (ctx : Ctx) :
    (∀ e, b.openTemplate fs = .returns (.error e) →
      template.FileTemplate.Render env ⟨b⟩ fs ctx = .returns (.error
        (template.NewFileReadError (some (template.NewFileOpenError (some e)))))) ∧
    (∀ e, b.openTemplate fs = .returns (.ok (.error e)) →
      template.FileTemplate.Render env ⟨b⟩ fs ctx = .returns (.error
        (template.NewFileReadError (some (template.NewFileReadError (some e)))))) ∧
    (∀ data e, b.readTemplate fs = .returns (.ok data) →
      env.Parse b.opts.Name (env.sprig :: b.opts.FuncMap.toList) data = .error e →
      template.FileTemplate.Render env ⟨b⟩ fs ctx = .returns (.error
        (template.NewCreateTemplateError (some (template.NewParseError (some e)))))) ∧
    (∀ data tmpl e, b.readTemplate fs = .returns (.ok data) →
      env.Parse b.opts.Name (env.sprig :: b.opts.FuncMap.toList) data = .ok tmpl →
      env.Execute tmpl ctx = .error e →
      template.FileTemplate.Render env ⟨b⟩ fs ctx = .returns (.error
        (template.NewExecutionError (some e)))) ∧
    (∀ data tmpl out e, b.readTemplate fs = .returns (.ok data) →
      env.Parse b.opts.Name (env.sprig :: b.opts.FuncMap.toList) data = .ok tmpl →
      env.Execute tmpl ctx = .ok out → b.opts.GoSource = true →
      env.FormatSource out = .error e →
      template.FileTemplate.Render env ⟨b⟩ fs ctx = .returns (.error
        (template.NewGoFormatError (some (template.NewGoFormatError (some e)))))) := by
  refine ⟨?_, ?_, ?_, ?_, ?_⟩
  · intro e h
    simp [template.FileTemplate.Render, template.baseTemplate.readTemplate, h]
  · intro e h
    simp [template.FileTemplate.Render, template.baseTemplate.readTemplate, h]
  · intro data e hr hp
    simp [template.FileTemplate.Render, hr, template.baseTemplate.createTemplate, hp]
  · intro data tmpl e hr hp hx
    simp [template.FileTemplate.Render, hr, template.baseTemplate.createTemplate, hp, hx]
  · intro data tmpl out e hr hp hx hg hf
    simp [template.FileTemplate.Render, hr, template.baseTemplate.createTemplate, hp, hx, hg,
      template.baseTemplate.formatGoSource, hf]

/-- C7 (counterexample): without a virtual file system and with a template path that
does not exist, the source cannot be opened, and `FileTemplate.Render` returns an error
of the category `FileReadError`, not `FileOpenError`; reading from a source that opens
but cannot be read gives the same category. -/
theorem C7_open_failure_is_reported_as_read_error :
    (template.NewFileTemplate mini.env
        [template.Path "/tpl/missing.tpl"]).tobaseTemplate.openTemplate mini.fsEmpty
      = .returns (.error (template.NewFileOpenError none)) ∧
    template.FileTemplate.Render mini.env
        (template.NewFileTemplate mini.env [template.Path "/tpl/missing.tpl"])
        mini.fsEmpty [("Name", "Bob")]
      = .returns (.error
          { kind := .FileReadError,
            msg := "failed to read template file: unable to open template file: " ++
              "unable to open template file: %!s(<nil>)" }) ∧
    template.FileTemplate.Render mini.env
        (template.NewFileTemplate mini.env
          [template.Path "/tpl/hello.tpl", template.UseFilesystem (some mini.unreadable)])
        mini.fsEmpty [("Name", "Bob")]
      = .returns (.error
          { kind := .FileReadError,
            msg := "failed to read template file: failed to read template file: " ++
              "unexpected EOF" }) := by
  decide

/-- C7 (amended): `FileTemplate.Render` and `PartialFileTemplate.Render` report a
failure by the step of `Render` that failed.  When the template source cannot be
opened, and when the opened source cannot be read, both return a `FileReadError`
(wrapping the text of the inner `FileOpenError` or `FileReadError`); when parsing
fails a `CreateTemplateError`; when execution fails an `ExecutionError`; when
formatting is requested and fails a `GoFormatError`.  Conversely an error they return
is never a `FileOpenError`, and it has one of the four categories exactly when the
step of that category failed. -/
theorem C7_Render_error_categories {Ctx F T : Type} (env : Env Ctx F T)
    (b : template.baseTemplate F) (fs : FS) (ctx : Ctx) :
    (∀ e, b.openTemplate fs = .returns (.error e) →
      ∃ err, err.kind = .FileReadError ∧
        err = template.NewFileReadError (some (template.NewFileOpenError (some e))) ∧
        template.FileTemplate.Render env ⟨b⟩ fs ctx = .returns (.error err) ∧
        template.PartialFileTemplate.Render env ⟨b⟩ fs ctx = .returns (.error err)) ∧
    (∀ e, b.openTemplate fs = .returns (.ok (.error e)) →
      ∃ err, err.kind = .FileReadError ∧
        err = template.NewFileReadError (some (template.NewFileReadError (some e))) ∧
        template.FileTemplate.Render env ⟨b⟩ fs ctx = .returns (.error err) ∧
        template.PartialFileTemplate.Render env ⟨b⟩ fs ctx = .returns (.error err)) ∧
    (∀ data e, b.readTemplate fs = .returns (.ok data) →
      env.Parse b.opts.Name (env.sprig :: b.opts.FuncMap.toList) data = .error e →
      ∃ err, err.kind = .CreateTemplateError ∧
        err = template.NewCreateTemplateError (some (template.NewParseError (some e))) ∧
        template.FileTemplate.Render env ⟨b⟩ fs ctx = .returns (.error err) ∧
        template.PartialFileTemplate.Render env ⟨b⟩ fs ctx = .returns (.error err)) ∧
    (∀ data tmpl e, b.readTemplate fs = .returns (.ok data) →
      env.Parse b.opts.Name (env.sprig :: b.opts.FuncMap.toList) data = .ok tmpl →
      env.Execute tmpl ctx = .error e →
      ∃ err, err.kind = .ExecutionError ∧
        err = template.NewExecutionError (some e) ∧
        template.FileTemplate.Render env ⟨b⟩ fs ctx = .returns (.error err) ∧
        template.PartialFileTemplate.Render env ⟨b⟩ fs ctx = .returns (.error err)) ∧
    (∀ data tmpl out e, b.readTemplate fs = .returns (.ok data) →
      env.Parse b.opts.Name (env.sprig :: b.opts.FuncMap.toList) data = .ok tmpl →
      env.Execute tmpl ctx = .ok out → b.opts.GoSource = true →
      env.FormatSource out = .error e →
      ∃ err, err.kind = .GoFormatError ∧
        err = template.NewGoFormatError (some (template.NewGoFormatError (some e))) ∧
        template.FileTemplate.Render env ⟨b⟩ fs ctx = .returns (.error err) ∧
        template.PartialFileTemplate.Render env ⟨b⟩ fs ctx = .returns (.error err)) ∧
    (∀ err, (template.FileTemplate.Render env ⟨b⟩ fs ctx = .returns (.error err) ∨
        template.PartialFileTemplate.Render env ⟨b⟩ fs ctx = .returns (.error err)) →
      err.kind ≠ .FileOpenError ∧
      (err.kind = .FileReadError ↔
        ((∃ e, b.openTemplate fs = .returns (.error e)) ∨
          (∃ e, b.openTemplate fs = .returns (.ok (.error e))))) ∧
      (err.kind = .CreateTemplateError ↔
        ∃ data e, b.readTemplate fs = .returns (.ok data) ∧
          b.createTemplate env data = .error e) ∧
      (err.kind = .ExecutionError ↔
        ∃ data tmpl e, b.readTemplate fs = .returns (.ok data) ∧
          b.createTemplate env data = .ok tmpl ∧ env.Execute tmpl ctx = .error e) ∧
      (err.kind = .GoFormatError ↔
        ∃ data tmpl out e, b.readTemplate fs = .returns (.ok data) ∧
          b.createTemplate env data = .ok tmpl ∧ env.Execute tmpl ctx = .ok out ∧
          b.opts.GoSource = true ∧ env.FormatSource out = .error e)) := by
  obtain ⟨c1, c2, c3, c4, c5⟩ := FileTemplate_Render_causes env b fs ctx
  refine ⟨?_, ?_, ?_, ?_, ?_, ?_⟩
  · intro e h
    exact ⟨_, rfl, rfl, c1 e h, (Partial_Render_eq env b fs ctx).trans (c1 e h)⟩
  · intro e h
    exact ⟨_, rfl, rfl, c2 e h, (Partial_Render_eq env b fs ctx).trans (c2 e h)⟩
  · intro data e hr hp
    exact ⟨_, rfl, rfl, c3 data e hr hp, (Partial_Render_eq env b fs ctx).trans (c3 data e hr hp)⟩
  · intro data tmpl e hr hp hx
    exact ⟨_, rfl, rfl, c4 data tmpl e hr hp hx,
      (Partial_Render_eq env b fs ctx).trans (c4 data tmpl e hr hp hx)⟩
  · intro data tmpl out e hr hp hx hg hf
    exact ⟨_, rfl, rfl, c5 data tmpl out e hr hp hx hg hf,
      (Partial_Render_eq env b fs ctx).trans (c5 data tmpl out e hr hp hx hg hf)⟩
  · intro err h
    rcases h with h | h
    · exact FileTemplate_Render_error_kind env b fs ctx err h
    · rw [Partial_Render_eq] at h
      exact FileTemplate_Render_error_kind env b fs ctx err h

/-- C7 (witness): the five failing steps on concrete inputs.  A missing template path
(opening fails), a virtual file system whose files cannot be read (reading fails), the
template `/tpl/bad.tpl` with an action that is not closed (parsing fails), the
template `/tpl/hello.tpl` with a context that lacks the field `Name` (execution
fails), and the same template with formatting requested, whose output is not Go
source (formatting fails). -/
theorem C7_Render_error_categories_witness :
    (∃ err, err.kind = .FileReadError ∧
      err = template.NewFileReadError (some (template.NewFileOpenError
        (some (template.NewFileOpenError none)))) ∧
      template.FileTemplate.Render mini.env
        ⟨(template.NewFileTemplate mini.env [template.Path "/tpl/missing.tpl"]).tobaseTemplate⟩
        mini.fsEmpty [("Name", "Bob")] = .returns (.error err) ∧
      template.PartialFileTemplate.Render mini.env
        ⟨(template.NewFileTemplate mini.env [template.Path "/tpl/missing.tpl"]).tobaseTemplate⟩
        mini.fsEmpty [("Name", "Bob")] = .returns (.error err)) ∧
    (∃ err, err.kind = .FileReadError ∧
      err = template.NewFileReadError (some (template.NewFileReadError
        (some { kind := .external, msg := "unexpected EOF" }))) ∧
      template.FileTemplate.Render mini.env
        ⟨(template.NewFileTemplate mini.env [template.Path "/tpl/hello.tpl",
          template.UseFilesystem (some mini.unreadable)]).tobaseTemplate⟩
        mini.fsEmpty [("Name", "Bob")] = .returns (.error err) ∧
      template.PartialFileTemplate.Render mini.env
        ⟨(template.NewFileTemplate mini.env [template.Path "/tpl/hello.tpl",
          template.UseFilesystem (some mini.unreadable)]).tobaseTemplate⟩
        mini.fsEmpty [("Name", "Bob")] = .returns (.error err)) ∧
    (∃ err, err.kind = .CreateTemplateError ∧
      err = template.NewCreateTemplateError (some (template.NewParseError
        (some { kind := .external, msg := "template: unclosed action" }))) ∧
      template.FileTemplate.Render mini.env
        ⟨(template.NewFileTemplate mini.env [template.Path "/tpl/bad.tpl"]).tobaseTemplate⟩
        mini.fsBad [("Name", "Bob")] = .returns (.error err) ∧
      template.PartialFileTemplate.Render mini.env
        ⟨(template.NewFileTemplate mini.env [template.Path "/tpl/bad.tpl"]).tobaseTemplate⟩
        mini.fsBad [("Name", "Bob")] = .returns (.error err)) ∧
    (∃ err, err.kind = .ExecutionError ∧
      err = template.NewExecutionError
        (some { kind := .external, msg := "template: can't evaluate field Name" }) ∧
      template.FileTemplate.Render mini.env
        ⟨(template.NewFileTemplate mini.env [template.Path "/tpl/hello.tpl"]).tobaseTemplate⟩
        mini.fsEmpty [] = .returns (.error err) ∧
      template.PartialFileTemplate.Render mini.env
        ⟨(template.NewFileTemplate mini.env [template.Path "/tpl/hello.tpl"]).tobaseTemplate⟩
        mini.fsEmpty [] = .returns (.error err)) ∧
    (∃ err, err.kind = .GoFormatError ∧
      err = template.NewGoFormatError (some (template.NewGoFormatError
        (some { kind := .external, msg := "expected 'package'" }))) ∧
      template.FileTemplate.Render mini.env
        ⟨(template.NewFileTemplate mini.env [template.Path "/tpl/hello.tpl",
          template.GoSource true]).tobaseTemplate⟩
        mini.fsEmpty [("Name", "Bob")] = .returns (.error err) ∧
      template.PartialFileTemplate.Render mini.env
        ⟨(template.NewFileTemplate mini.env [template.Path "/tpl/hello.tpl",
          template.GoSource true]).tobaseTemplate⟩
        mini.fsEmpty [("Name", "Bob")] = .returns (.error err)) :=
  ⟨(C7_Render_error_categories mini.env
      (template.NewFileTemplate mini.env [template.Path "/tpl/missing.tpl"]).tobaseTemplate
      mini.fsEmpty [("Name", "Bob")]).1 (template.NewFileOpenError none) (by decide),
   (C7_Render_error_categories mini.env
      (template.NewFileTemplate mini.env [template.Path "/tpl/hello.tpl",
        template.UseFilesystem (some mini.unreadable)]).tobaseTemplate
      mini.fsEmpty [("Name", "Bob")]).2.1 { kind := .external, msg := "unexpected EOF" }
      (by decide),
   (C7_Render_error_categories mini.env
      (template.NewFileTemplate mini.env [template.Path "/tpl/bad.tpl"]).tobaseTemplate
      mini.fsBad [("Name", "Bob")]).2.2.1 "Hello \x7b\x7b.Name"
      { kind := .external, msg := "template: unclosed action" } (by decide) (by decide),
   (C7_Render_error_categories mini.env
      (template.NewFileTemplate mini.env [template.Path "/tpl/hello.tpl"]).tobaseTemplate
      mini.fsEmpty []).2.2.2.1 "Hello \x7b\x7b.Name\x7d\x7d"
      [.text "Hello ", .field "Name", .text ""]
      { kind := .external, msg := "template: can't evaluate field Name" }
      (by decide) (by decide) (by decide),
   (C7_Render_error_categories mini.env
      (template.NewFileTemplate mini.env [template.Path "/tpl/hello.tpl",
        template.GoSource true]).tobaseTemplate
      mini.fsEmpty [("Name", "Bob")]).2.2.2.2.1 "Hello \x7b\x7b.Name\x7d\x7d"
      [.text "Hello ", .field "Name", .text ""] "Hello Bob"
      { kind := .external, msg := "expected 'package'" }
      (by decide) (by decide) (by decide) (by decide) (by decide)⟩

/-- C8 (evaluated at the failing input): no virtual file system; `/tmp/test.go` is a
regular file and the template path is `/tmp/test.go/x`, which names no entry.
`os.Stat` fails with `ENOTDIR`, which is not a not-exist error, so `info` is nil and
`templateFileExists` panics instead of returning false; `openTemplate` panics with it. -/
theorem C8_templateFileExists_panics_below_a_file :
    mini.fsTmp.get ["x", "test.go", "tmp"] = none ∧
    os.Stat mini.fsTmp "/tmp/test.go/x"
      = .error (os.pathError "stat" "/tmp/test.go/x" .ENOTDIR) ∧
    os.IsNotExist (some (os.pathError "stat" "/tmp/test.go/x" .ENOTDIR)) = false ∧
    (template.NewFileTemplate mini.env
        [template.Path "/tmp/test.go/x"]).tobaseTemplate.templateFileExists mini.fsTmp
      = .panics "invalid memory address or nil pointer dereference" ∧
    (template.NewFileTemplate mini.env
        [template.Path "/tmp/test.go/x"]).tobaseTemplate.openTemplate mini.fsTmp
      = .panics "invalid memory address or nil pointer dereference" := by
  decide

/-- Supporting lemma (C8): when `os.Stat` on the template path succeeds or fails with
the not-exist error, `templateFileExists` returns true exactly when the path is not
empty and names an entry that is not a directory. -/
theorem templateFileExists_of_stat {F : Type} (b : template.baseTemplate F) (fs : FS)
    (hs : ∀ e, os.Stat fs b.opts.Path = .error e → os.IsNotExist (some e) = true) :
    b.templateFileExists fs = .returns
      (if b.opts.Path = "" then false
       else match os.Stat fs b.opts.Path with
         | .ok info => !info.isDir
         | .error _ => false) := by
  unfold template.baseTemplate.templateFileExists
  by_cases hp : b.opts.Path = ""
  · simp [hp]
  · simp only [hp, if_false]
    cases hg : os.Stat fs b.opts.Path with
    | error e => simp [hs e hg]
    | ok info => cases hi : info.isDir <;> simp [os.FileInfo.IsDir, hi]

/-- Supporting lemma (C8): without a virtual file system, when `os.Stat` on the
template path finds a directory or fails with the not-exist error, `openTemplate`
returns the error `NewFileOpenError(nil)`. -/
theorem openTemplate_of_no_file (F : Type) (b : template.baseTemplate F) (fs : FS)
    (hv : b.opts.Filesystem = none)
    (hs : ∀ e, os.Stat fs b.opts.Path = .error e → os.IsNotExist (some e) = true)
    (hn : ∀ info, os.Stat fs b.opts.Path = .ok info → info.isDir = true) :
    b.openTemplate fs = .returns (.error (template.NewFileOpenError none)) := by
  unfold template.baseTemplate.openTemplate
  rw [hv, templateFileExists_of_stat b fs hs]
  by_cases hp : b.opts.Path = ""
  · simp [hp]
  · cases hg : os.Stat fs b.opts.Path with
    | error e => simp [hp]
    | ok info => simp [hp, hn info hg]

/-- C10: for every option set, file system, template engine and context,
`PartialFileTemplate.Render` returns what `FileTemplate.Render` returns on the same
options: the same bytes, the same error or the same panic.  The self-invocation
directive is appended to the template data after parsing and reaches neither the
parsed template nor the output. -/
theorem C10_Partial_Render_eq_File_Render {Ctx F T : Type} (env : Env Ctx F T)
    (options : List (template.OptionFn F)) (fs : FS) (ctx : Ctx) :
    (template.NewPartialFileTemplate env options).Render env fs ctx
      = (template.NewFileTemplate env options).Render env fs ctx := by
  unfold template.PartialFileTemplate.Render template.FileTemplate.Render
  rfl

end GoTemplate
